import Mathlib

/-!
# Supervisory loop of the ESB PRX node (src/PRX/main.c)

A shallow embedding of the timing-and-dispatch core of `src/PRX/main.c`:
the tick interrupt `timer0_irq`, the millisecond counter and the two periodic
flags it maintains, and the dispatcher pass `run_event_loop`.

Machine integers are natural numbers; every store into an 8-bit or 32-bit
object is reduced modulo `2^8` or `2^32` at the point of the store.
Calls that leave the file (the UART through `printf`, the ESB radio module,
the watchdog) are recorded, in call order, in a log of `Action`s.

A run is a list of events, each a firing of the tick interrupt or one whole
pass of `run_event_loop`; inside a pass the counter is read in one piece. The
section on the read of the millisecond counter looks inside that read, byte
by byte, with the interrupt enable bit `EA`.
-/

namespace PRX

/-! ## Constants of main.c -/

/-- Line 89: `#define ONE_MILLI_SEC_IN_US (1000)`. -/
def ONE_MILLI_SEC_IN_US : Nat := 1000

/-- Line 90: `#define MINI_TIME_SCALE_IN_US (100)`. -/
def MINI_TIME_SCALE_IN_US : Nat := 100

/-- Line 79: `#define FEED_DOG_INTERVAL_IN_MS (500L)`. -/
def FEED_DOG_INTERVAL_IN_MS : Nat := 500

/-- Line 82: `#define PRINT_TIME_INTERVAL_IN_MS (1000L)`. -/
def PRINT_TIME_INTERVAL_IN_MS : Nat := 1000

/-- Line 216: `#define WDOG_TIMEOUT_IN_SEC (3*FEED_DOG_INTERVAL_IN_MS/1000)`,
evaluated left to right in integer arithmetic (`_ENABLE_POWER_SAVING` is not
defined in this file, so the override of lines 217-222 is not compiled). -/
def WDOG_TIMEOUT_IN_SEC : Nat := 3 * FEED_DOG_INTERVAL_IN_MS / 1000

/-- Line 224: the argument of `hal_wdog_init`,
`WDOG_TIMEOUT_IN_SEC*32768/256`. -/
def hal_wdog_init_arg : Nat := WDOG_TIMEOUT_IN_SEC * 32768 / 256

/-- Line 223, the comment in main: `watch dog timeout = SDSV*256/32768`,
the timeout in seconds that a start value `sdsv` given to `hal_wdog_init`
denotes. -/
def wdog_timeout_in_sec (sdsv : Nat) : Nat := sdsv * 256 / 32768

/-! ## Shared state -/

/-- The variables shared by the interrupt and the main context:
the `static uint8_t timer0_overflow_counter` of `timer0_irq` (line 94),
`g_elaspsed_time_in_ms` (line 87, `uint32_t`) and the two `uint8_t` flags
of lines 80 and 83. -/
structure State where
  timer0_overflow_counter : Nat
  g_elaspsed_time_in_ms : Nat
  g_is_need_to_feed_the_watchdog : Nat
  g_is_need_to_print_time : Nat
  deriving DecidableEq, Repr

/-- The state after C start-up: every initialiser in the file is zero. -/
def boot : State :=
  { timer0_overflow_counter := 0
    g_elaspsed_time_in_ms := 0
    g_is_need_to_feed_the_watchdog := 0
    g_is_need_to_print_time := 0 }

/-! ## The tick interrupt -/

/-- Lines 92-110, `timer0_irq`: one firing of the timer 0 interrupt. -/
def timer0_irq (s : State) : State :=
  let c := (s.timer0_overflow_counter + 1) % 256
  if ONE_MILLI_SEC_IN_US / MINI_TIME_SCALE_IN_US ≤ c then
    let ms := (s.g_elaspsed_time_in_ms + 1) % 2 ^ 32
    { timer0_overflow_counter := 0
      g_elaspsed_time_in_ms := ms
      g_is_need_to_feed_the_watchdog :=
        if ms % FEED_DOG_INTERVAL_IN_MS = 0 then 1
        else s.g_is_need_to_feed_the_watchdog
      g_is_need_to_print_time :=
        if ms % PRINT_TIME_INTERVAL_IN_MS = 0 then 1
        else s.g_is_need_to_print_time }
  else
    { s with timer0_overflow_counter := c }

/-- The state after `n` consecutive firings of `timer0_irq`. -/
def ticks : Nat → State → State
  | 0, s => s
  | n + 1, s => timer0_irq (ticks n s)

/-- Lines 133-136, `get_elasped_time_in_ms`. -/
def get_elasped_time_in_ms (s : State) : Nat := s.g_elaspsed_time_in_ms

/-! ## Output and collaborator calls -/

/-- One call that leaves main.c, as it appears in the log of a run. -/
inductive Action where
  /-- A call of `printf`; `text` is the characters it sends to `putchar`. -/
  | printf (text : String)
  /-- The poll `is_esb_received_data()` and the value it returned. -/
  | is_esb_received_data (ret : Nat)
  /-- The call `esb_fetch_received_data(&pipe, &buffer[0], &len)`. -/
  | esb_fetch_received_data
  /-- The call `esb_receiving_event_has_been_done()`. -/
  | esb_receiving_event_has_been_done
  /-- The call `hal_wdog_restart()`. -/
  | hal_wdog_restart
  deriving DecidableEq, Repr

/-- What the ESB module answers during one pass of `run_event_loop`:
the value returned by `is_esb_received_data()`, and what
`esb_fetch_received_data` leaves in `pipe`, `buffer` and `len`.
`buffer i` is the byte read back by the expression `buffer[i]`. -/
structure Esb where
  ready : Nat
  pipe : Nat
  buffer : Nat → Nat
  len : Nat

/-- Keil C51 conversion `%lu`: a 32-bit unsigned value in decimal. -/
def fmt_lu (v : Nat) : String := toString (v % 2 ^ 32)

/-- Keil C51 conversion `%bu`: an 8-bit unsigned value in decimal. -/
def fmt_bu (v : Nat) : String := toString (v % 256)

/-- Keil C51 conversion `%02bx`: an 8-bit value in hexadecimal with the
digits `0-9a-f`, padded with zeros on the left to a width of two. -/
def fmt_02bx (v : Nat) : String :=
  let d := Nat.toDigits 16 (v % 256)
  String.mk (List.replicate (2 - d.length) '0' ++ d)

/-- Lines 182-183, `for(i = 0; i< len; i++) printf(" %02bx", buffer[i]);`
seen as the list of indices `i` at which `buffer[i]` is read. The counter is
a `uint8_t`, so `i++` is taken modulo 256; `fuel` bounds the number of loop
tests. -/
def trace_loop (len : Nat) : Nat → Nat → List Nat
  | 0, _ => []
  | fuel + 1, i =>
    if i < len then i :: trace_loop len fuel ((i + 1) % 256) else []

/-! ## The dispatcher pass -/

/-- Lines 165-169: the heartbeat step of `run_event_loop`. -/
def step_print_time (m : State × List Action) : State × List Action :=
  if m.1.g_is_need_to_print_time ≠ 0 then
    ({ m.1 with g_is_need_to_print_time := 0 },
      m.2 ++ [Action.printf
        (" " ++ fmt_lu (get_elasped_time_in_ms m.1 / 1000) ++ " sec\r\n")])
  else m

/-- Lines 179-184: the texts of the `printf` calls that make up one packet
trace, in call order. `pipe` and `len` are printed with `%bu`; an 8-bit
counter takes 256 values, so 256 loop tests are given to `trace_loop`. -/
def packet_trace_texts (r : Esb) : List String :=
  ["rf rcv in pipe = " ++ fmt_bu r.pipe ++ ", len = " ++ fmt_bu r.len ++ "::"]
    ++ (trace_loop (r.len % 256) 256 0).map (fun i => " " ++ fmt_02bx (r.buffer i))
    ++ ["\r\n"]

/-- Lines 179-184: the `printf` calls that make up one packet trace. -/
def packet_trace (r : Esb) : List Action :=
  (packet_trace_texts r).map Action.printf

/-- Lines 177-191: the body of the `if` on `is_esb_received_data()`. -/
def esb_body (r : Esb) : List Action :=
  [Action.esb_fetch_received_data] ++ packet_trace r
    ++ [Action.esb_receiving_event_has_been_done]

/-- Lines 172-192: the packet step of `run_event_loop`. -/
def step_esb (r : Esb) (m : State × List Action) : State × List Action :=
  let polled := m.2 ++ [Action.is_esb_received_data r.ready]
  if r.ready ≠ 0 then (m.1, polled ++ esb_body r) else (m.1, polled)

/-- Lines 195-199: the watchdog step of `run_event_loop`. -/
def step_feed_dog (m : State × List Action) : State × List Action :=
  if m.1.g_is_need_to_feed_the_watchdog ≠ 0 then
    ({ m.1 with g_is_need_to_feed_the_watchdog := 0 },
      m.2 ++ [Action.hal_wdog_restart])
  else m

/-- Lines 159-201, `run_event_loop`: one pass of the dispatcher from state
`s` with the ESB module answering `r`; the result is the state after the
pass and the calls made, in order. -/
def run_event_loop (s : State) (r : Esb) : State × List Action :=
  step_feed_dog (step_esb r (step_print_time (s, [])))

/-- The text sent to the UART by a log: the concatenation of the `printf`
texts in call order. -/
def uart_text : List Action → String
  | [] => ""
  | Action.printf t :: rest => t ++ uart_text rest
  | _ :: rest => uart_text rest

/-! ## Interleavings of ticks and passes -/

/-- One event of a run: a firing of the tick interrupt, or one complete
pass of `run_event_loop` (lines 234-237) with the ESB answers of that pass. -/
inductive Event where
  | tick
  | pass (r : Esb)

/-- The effect of one event on the state, with the calls it makes. -/
def step (s : State) : Event → State × List Action
  | Event.tick => (timer0_irq s, [])
  | Event.pass r => run_event_loop s r

/-- The state after a run of events, and the log of the whole run. -/
def run (s : State) : List Event → State × List Action
  | [] => (s, [])
  | e :: es => ((run (step s e).1 es).1, (step s e).2 ++ (run (step s e).1 es).2)

/-- The two periodic flags of lines 80 and 83. -/
inductive Flag where
  | FeedWatchdog
  | PrintHeartbeat
  deriving DecidableEq, Repr

/-- The variable that holds a flag. -/
def Flag.value : Flag → State → Nat
  | Flag.FeedWatchdog, s => s.g_is_need_to_feed_the_watchdog
  | Flag.PrintHeartbeat, s => s.g_is_need_to_print_time

/-- The interval, in milliseconds, that `timer0_irq` tests for a flag. -/
def Flag.interval : Flag → Nat
  | Flag.FeedWatchdog => FEED_DOG_INTERVAL_IN_MS
  | Flag.PrintHeartbeat => PRINT_TIME_INTERVAL_IN_MS

/-- A firing of `timer0_irq` from state `s` changes `g_elaspsed_time_in_ms`
to a multiple of `k`. -/
def reaches_multiple (k : Nat) (s : State) : Prop :=
  (timer0_irq s).g_elaspsed_time_in_ms ≠ s.g_elaspsed_time_in_ms ∧
    (timer0_irq s).g_elaspsed_time_in_ms % k = 0

instance (k : Nat) (s : State) : Decidable (reaches_multiple k s) := by
  unfold reaches_multiple; infer_instance

/-- The two hexadecimal digits of a byte, high digit first, written with
the digits `0-9a-f`. -/
def hex2 (b : Nat) : String :=
  String.mk [Nat.digitChar (b / 16), Nat.digitChar (b % 16)]

/-- The same two digits written with `0-9A-F`, the rendering of the
scenario of the specification (`0xAB` is `AB`). -/
def hex2_upper (b : Nat) : String :=
  String.mk [(Nat.digitChar (b / 16)).toUpper, (Nat.digitChar (b % 16)).toUpper]

/-- The text of a list of byte tokens: each token is written by `tok` and
preceded by one space. -/
def spaced_tokens (tok : Nat → String) : List Nat → String
  | [] => ""
  | b :: bs => " " ++ tok b ++ spaced_tokens tok bs

/-- The answers of the ESB module when it holds the packet `payload` for
pipe `pipe`: the poll returns 1 and the fetch stores the pipe, the payload
bytes at the start of `buffer`, and their number. The bytes of `buffer` past
the payload, which the fetch does not write, read as 0 here. -/
def esb_packet (pipe : Nat) (payload : List Nat) : Esb :=
  { ready := 1
    pipe := pipe
    buffer := fun i => payload.getD i 0
    len := payload.length }

/-- The answers of the ESB module when no packet is pending: the poll
returns 0 (the other fields are not consulted). -/
def esb_idle : Esb :=
  { ready := 0, pipe := 0, buffer := fun _ => 0, len := 0 }

/-! ## Packets over a run -/

/-- A received packet as the ESB module holds it: the pipe it came in on
and its payload bytes. -/
structure Packet where
  pipe : Nat
  payload : List Nat
  deriving DecidableEq, Repr

/-- The answers `r` of the ESB module in one pass present the packet `p`:
the poll returns non-zero and the fetch stores the pipe of `p`, the length of
its payload, and its payload bytes at the start of `buffer`. -/
def holds_packet (r : Esb) (p : Packet) : Prop :=
  r.ready ≠ 0 ∧ r.pipe = p.pipe ∧ r.len = p.payload.length ∧
    ∀ i (h : i < p.payload.length), r.buffer i = p.payload[i]

/-- The ESB answers of the passes of a run whose poll returned non-zero, in
order. -/
def ready_passes : List Event → List Esb
  | [] => []
  | Event.tick :: es => ready_passes es
  | Event.pass r :: es => if r.ready ≠ 0 then r :: ready_passes es else ready_passes es

/-- Over the run `evs` the ESB module presents each packet of `packets`
once, in order: the passes whose poll returns non-zero are as many as the
packets, and the i-th of them fetches the i-th packet. -/
def presents (evs : List Event) (packets : List Packet) : Prop :=
  List.Forall₂ holds_packet (ready_passes evs) packets

/-- The packet traces of a log: for each `esb_fetch_received_data`, the
texts of the `printf` calls made between it and the following
`esb_receiving_event_has_been_done`, one list of texts per packet. `open_trace`
is the trace being collected, if a fetch has not been released yet. -/
def packet_traces : Option (List String) → List Action → List (List String)
  | _, [] => []
  | open_trace, a :: rest =>
    match a with
    | Action.esb_fetch_received_data => packet_traces (some []) rest
    | Action.printf t =>
      match open_trace with
      | some acc => packet_traces (some (acc ++ [t])) rest
      | none => packet_traces none rest
    | Action.esb_receiving_event_has_been_done =>
      match open_trace with
      | some acc => acc :: packet_traces none rest
      | none => packet_traces none rest
    | Action.is_esb_received_data _ => packet_traces open_trace rest
    | Action.hal_wdog_restart => packet_traces open_trace rest

/-- The byte tokens of one packet trace: its `printf` texts without the
first (the header up to `::`) and the last (the line end). -/
def trace_tokens (t : List String) : List String := t.tail.dropLast

/-- The value of a hexadecimal digit, in either case. -/
def hex_digit_value (c : Char) : Option Nat :=
  if '0' ≤ c ∧ c ≤ '9' then some (c.toNat - '0'.toNat)
  else if 'a' ≤ c ∧ c ≤ 'f' then some (c.toNat - 'a'.toNat + 10)
  else if 'A' ≤ c ∧ c ≤ 'F' then some (c.toNat - 'A'.toNat + 10)
  else none

/-- The value of a byte token: one space followed by exactly two
hexadecimal digits. -/
def hex_token_value (t : String) : Option Nat :=
  match t.data with
  | [' ', hi, lo] =>
    match hex_digit_value hi, hex_digit_value lo with
    | some a, some b => some (16 * a + b)
    | _, _ => none
  | _ => none

/-- The release discipline of the ESB module checked on a log: a fetch is
made only when no fetched packet is pending, every fetch is followed by
exactly one release before the next poll or fetch, no release is made without
a pending fetch, and nothing is pending at the end. `pending` tells whether a
fetch awaits its release. -/
def release_discipline : Bool → List Action → Bool
  | pending, [] => !pending
  | pending, a :: rest =>
    match a with
    | Action.esb_fetch_received_data => !pending && release_discipline true rest
    | Action.esb_receiving_event_has_been_done => pending && release_discipline false rest
    | Action.is_esb_received_data _ => !pending && release_discipline false rest
    | Action.printf _ => release_discipline pending rest
    | Action.hal_wdog_restart => release_discipline pending rest

/-! ## Watchdog timing over a run -/

/-- The number of tick firings in a list of events. -/
def count_ticks : List Event → Nat
  | [] => 0
  | Event.tick :: es => count_ticks es + 1
  | Event.pass _ :: es => count_ticks es

/-- The times, counted in tick firings since boot, at which the passes of a
run call `hal_wdog_restart`; `now` is the number of firings before the run. -/
def restart_times (s : State) (now : Nat) : List Event → List Nat
  | [] => []
  | Event.tick :: es => restart_times (timer0_irq s) (now + 1) es
  | Event.pass r :: es =>
    (if Action.hal_wdog_restart ∈ (run_event_loop s r).2 then [now] else [])
      ++ restart_times (run_event_loop s r).1 now es

/-- Between `last`, the times `ts` in order, and `stop`, no two neighbours
are more than `bound` apart. -/
def gaps_within (bound : Nat) (last : Nat) : List Nat → Nat → Prop
  | [], stop => stop ≤ last + bound
  | t :: ts, stop => t ≤ last + bound ∧ gaps_within bound t ts stop

/-- A watchdog of timeout `timeout` (in tick firings) that watches a run:
`since` is the number of firings since the last `hal_wdog_restart` (or since
boot); the result is true when `since` never exceeds the timeout, i.e. the
run has no missed deadline. -/
def wdog_alive (timeout : Nat) (s : State) (since : Nat) : List Event → Bool
  | [] => decide (since ≤ timeout)
  | Event.tick :: es =>
    decide (since ≤ timeout) && wdog_alive timeout (timer0_irq s) (since + 1) es
  | Event.pass r :: es =>
    decide (since ≤ timeout) &&
      wdog_alive timeout (run_event_loop s r).1
        (if Action.hal_wdog_restart ∈ (run_event_loop s r).2 then 0 else since) es

/-- Nominal operation over a number of milliseconds: one list of events per
millisecond, each holding the 10 tick firings of that millisecond and at
least one complete pass of `run_event_loop`, in any order. -/
def nominal (blocks : List (List Event)) : Prop :=
  ∀ b ∈ blocks, count_ticks b = 10 ∧ ∃ r, Event.pass r ∈ b

/-- One millisecond of an idle node: its 10 tick firings, then one pass
with no packet pending. -/
def idle_millisecond : List Event :=
  List.replicate 10 Event.tick ++ [Event.pass esb_idle]

/-- A run of `n` idle milliseconds. -/
@[irreducible]
def idle_run (n : Nat) : List (List Event) := List.replicate n idle_millisecond

/-- The state at a millisecond boundary `ms` of a nominal run, `since`
firings after the last restart. -/
def at_boundary (ms : Nat) (s : State) (since : Nat) : Prop :=
  s.timer0_overflow_counter = 0 ∧ s.g_elaspsed_time_in_ms = ms ∧
  (s.g_is_need_to_feed_the_watchdog = 0 → since ≤ 10 * (ms % 500)) ∧
  (s.g_is_need_to_feed_the_watchdog ≠ 0 → ms % 500 = 0 ∧ since ≤ 5000)

/-- The state inside millisecond `ms` of a nominal run after `j` of its
firings, `seen` telling whether a pass of this millisecond has run. -/
def in_block (ms j : Nat) (seen : Bool) (s : State) (since : Nat) : Prop :=
  j ≤ 10 ∧
  s.timer0_overflow_counter = (if j < 10 then j else 0) ∧
  s.g_elaspsed_time_in_ms = (if j < 10 then ms else ms + 1) ∧
  (s.g_is_need_to_feed_the_watchdog = 0 →
    (j < 10 → since ≤ 10 * (ms % 500) + j) ∧
    (j = 10 → since ≤ 10 * ((ms + 1) % 500))) ∧
  (s.g_is_need_to_feed_the_watchdog ≠ 0 →
    (j < 10 → ms % 500 = 0 ∧ seen = false ∧ since ≤ 5000 + j) ∧
    (j = 10 → ((ms + 1) % 500 = 0 ∧ since ≤ 5000) ∨
      (ms % 500 = 0 ∧ seen = false ∧ since ≤ 5010)))

/-- The `printf` texts that the trace of packet `p` is to consist of: the
header with pipe and length in decimal, one token per payload byte (a space
and two lower-case hexadecimal digits), and the line end. -/
def packet_line (p : Packet) : List String :=
  ("rf rcv in pipe = " ++ toString p.pipe ++ ", len = " ++ toString p.payload.length ++ "::")
    :: (p.payload.map (fun b => " " ++ hex2 b) ++ ["\r\n"])

/-! ## Timer 0 set-up and the low-power timeout -/

/-- Line 75: `#define MCU_CRYSTAL_FREQUENCY_IN_HZ (16*1000*1000L)`. -/
def MCU_CRYSTAL_FREQUENCY_IN_HZ : Nat := 16 * 1000 * 1000

/-- Line 76: `#define CLOCK_NUMBER_PER_MACHINE_CYCLE (12L)`. -/
def CLOCK_NUMBER_PER_MACHINE_CYCLE : Nat := 12

/-- Lines 115-118 of `timer0_init`: the local `uint8_t
timer0_overflow_counter`, the number of machine cycles per tick, computed
left to right in integer arithmetic and stored in 8 bits. -/
def timer0_init_counter : Nat :=
  (MCU_CRYSTAL_FREQUENCY_IN_HZ / CLOCK_NUMBER_PER_MACHINE_CYCLE / 1000
    * MINI_TIME_SCALE_IN_US / 1000) % 256

/-- Line 124 of `timer0_init`: `TH0 = 0x100 - timer0_overflow_counter;`,
the 8-bit reload value of timer 0. -/
def timer0_init_TH0 : Nat := (0x100 - timer0_init_counter) % 256

/-- Line 98: `ONE_MILLI_SEC_IN_US/MINI_TIME_SCALE_IN_US`, the number of
ticks after which `timer0_irq` increments the millisecond counter. -/
def ticks_per_ms : Nat := ONE_MILLI_SEC_IN_US / MINI_TIME_SCALE_IN_US

/-- Lines 216-222 with `_ENABLE_POWER_SAVING` defined: the number that the
macro `WDOG_TIMEOUT_IN_SEC` stands for at line 224 when
`POWER_SAVING_TIME_IN_SEC` is `p`, as the preprocessor selects it. What main
passes to `hal_wdog_init` from it is `hal_wdog_init_arg_power_saving`. -/
def WDOG_TIMEOUT_IN_SEC_power_saving (p : Nat) : Nat :=
  if WDOG_TIMEOUT_IN_SEC ≤ p then p + 1 else WDOG_TIMEOUT_IN_SEC

/-- Line 224 with `_ENABLE_POWER_SAVING` defined: the start value that
reaches the watchdog from `hal_wdog_init(WDOG_TIMEOUT_IN_SEC*32768/256)`.
The expression is a C `long` (32 bits, signed): when the product does not fit
the result is `none`; otherwise the quotient is converted to the 16-bit start
value that `hal_wdog_init` takes, that is reduced modulo `2^16`. -/
def hal_wdog_init_arg_power_saving (p : Nat) : Option Nat :=
  if WDOG_TIMEOUT_IN_SEC_power_saving p * 32768 < 2 ^ 31 then
    some (WDOG_TIMEOUT_IN_SEC_power_saving p * 32768 / 256 % 2 ^ 16)
  else none

/-- The timeout, in milliseconds, that main configures with the low-power
mode enabled and `POWER_SAVING_TIME_IN_SEC` equal to `p`: the timeout that
the start value reaching `hal_wdog_init` denotes. -/
def wdog_timeout_in_ms_power_saving (p : Nat) : Option Nat :=
  (hal_wdog_init_arg_power_saving p).map (fun sdsv => wdog_timeout_in_sec sdsv * 1000)

/-- Lines 182-183 once more, `for(i = 0; i< len; i++) ...`, giving the
value of the 8-bit counter `i` when the test `i < len` fails; `none` when
`fuel` loop tests were not enough to reach that point. -/
def trace_loop_exit (len : Nat) : Nat → Nat → Option Nat
  | 0, _ => none
  | fuel + 1, i =>
    if i < len then trace_loop_exit len fuel ((i + 1) % 256) else some i

/-! ## Boundary crossings and their service -/

/-- The number of firings, among `n` consecutive firings of `timer0_irq`
from state `s`, that change `g_elaspsed_time_in_ms` to a multiple of
`interval`. -/
def crossings (interval : Nat) : Nat → State → Nat
  | 0, _ => 0
  | n + 1, s =>
    crossings interval n s + (if reaches_multiple interval (ticks n s) then 1 else 0)

/-- The number of `printf` calls that a pass makes before its poll of the
ESB module: the heartbeat lines of the pass. -/
def heartbeat_calls : List Action → Nat
  | [] => 0
  | Action.printf _ :: rest => heartbeat_calls rest + 1
  | Action.is_esb_received_data _ :: _ => 0
  | Action.esb_fetch_received_data :: rest => heartbeat_calls rest
  | Action.esb_receiving_event_has_been_done :: rest => heartbeat_calls rest
  | Action.hal_wdog_restart :: rest => heartbeat_calls rest

/-- How many times the log of a pass services a flag: the calls of
`hal_wdog_restart` for FeedWatchdog, the heartbeat lines for PrintHeartbeat. -/
def serviced : Flag → List Action → Nat
  | Flag.FeedWatchdog, log => List.count Action.hal_wdog_restart log
  | Flag.PrintHeartbeat, log => heartbeat_calls log

/-- The firing of `timer0_irq` that follows `n` firings from boot sets the
flag `f`: it changes `g_elaspsed_time_in_ms` to a multiple of the interval of
`f`, so that the assignment of line 104 (or 107) is executed. -/
def sets_flag (f : Flag) (n : Nat) : Prop :=
  reaches_multiple f.interval (ticks n boot)

/-! ## The read of the millisecond counter, byte by byte -/

/-- Line 23: `#define ENTER_CRITICAL_SECTION(XX) (EA = 0)`, as the new value
of the interrupt enable bit `EA`. -/
def ENTER_CRITICAL_SECTION (_EA : Nat) : Nat := 0

/-- Line 24: `#define EXIT_CRITICAL_SECTION(XX) (EA = 1)`, as the new value
of the interrupt enable bit `EA`. -/
def EXIT_CRITICAL_SECTION (_EA : Nat) : Nat := 1

/-- The value of `EA` while main runs the loop of lines 234-237: main writes
`EA` at line 207 (`ENTER_CRITICAL_SECTION`) and at line 229
(`EXIT_CRITICAL_SECTION`); `run_event_loop` and `get_elasped_time_in_ms`
contain no write of `EA`. -/
def EA_in_event_loop (EA_at_reset : Nat) : Nat :=
  EXIT_CRITICAL_SECTION (ENTER_CRITICAL_SECTION EA_at_reset)

/-- Byte `k` of a value, byte 0 being the least significant. -/
def byte_of (v k : Nat) : Nat := v / 256 ^ k % 256

/-- Line 135, `return g_elaspsed_time_in_ms;`, as the 8-bit core performs
it: the four bytes of the `xdata uint32_t` are loaded one after the other, in
the order `order` of byte numbers, and no statement of the function writes
`EA`. `fire` gives, for each load, the number of firings of `timer0_irq` that
are pending just before it; they are taken when `EA` is not 0 and held back
when `EA` is 0. The result is the value assembled from the loaded bytes and
the state after the last load. -/
def get_elasped_time_in_ms_bytes (EA : Nat) : List Nat → List Nat → State → Nat × State
  | [], _, s => (0, s)
  | k :: ks, fire, s =>
    let s1 := if EA ≠ 0 then ticks (fire.headD 0) s else s
    ((byte_of s1.g_elaspsed_time_in_ms k) * 256 ^ k
        + (get_elasped_time_in_ms_bytes EA ks fire.tail s1).1,
      (get_elasped_time_in_ms_bytes EA ks fire.tail s1).2)

/-! ## The tick interrupt: counter and flags -/

theorem timer0_irq_roll (s : State) (h : 10 ≤ (s.timer0_overflow_counter + 1) % 256) :
    timer0_irq s =
      { timer0_overflow_counter := 0
        g_elaspsed_time_in_ms := (s.g_elaspsed_time_in_ms + 1) % 2 ^ 32
        g_is_need_to_feed_the_watchdog :=
          if (s.g_elaspsed_time_in_ms + 1) % 2 ^ 32 % 500 = 0 then 1
          else s.g_is_need_to_feed_the_watchdog
        g_is_need_to_print_time :=
          if (s.g_elaspsed_time_in_ms + 1) % 2 ^ 32 % 1000 = 0 then 1
          else s.g_is_need_to_print_time } := by
  have h' : 1000 / 100 ≤ (s.timer0_overflow_counter + 1) % 256 := by omega
  simp only [timer0_irq, ONE_MILLI_SEC_IN_US, MINI_TIME_SCALE_IN_US,
    FEED_DOG_INTERVAL_IN_MS, PRINT_TIME_INTERVAL_IN_MS, if_pos h']

theorem timer0_irq_keep (s : State) (h : ¬ 10 ≤ (s.timer0_overflow_counter + 1) % 256) :
    timer0_irq s =
      { s with timer0_overflow_counter := (s.timer0_overflow_counter + 1) % 256 } := by
  have h' : ¬ 1000 / 100 ≤ (s.timer0_overflow_counter + 1) % 256 := by omega
  simp only [timer0_irq, ONE_MILLI_SEC_IN_US, MINI_TIME_SCALE_IN_US, if_neg h']

theorem ticks_boot_fields (n : Nat) :
    (ticks n boot).timer0_overflow_counter = n % 10 ∧
    (ticks n boot).g_elaspsed_time_in_ms = (n / 10) % 2 ^ 32 := by
  induction n with
  | zero => simp [ticks, boot]
  | succ n ih =>
    obtain ⟨hc, he⟩ := ih
    simp only [ticks]
    by_cases h : 10 ≤ ((ticks n boot).timer0_overflow_counter + 1) % 256
    · rw [timer0_irq_roll _ h]
      simp only [he]
      rw [hc] at h
      omega
    · rw [timer0_irq_keep _ h]
      simp only [he, hc]
      rw [hc] at h
      omega

/-- C1: after n firings of timer0_irq from the boot state, elapsed_ms is
floor(n / 10) mod 2^32 and the tick accumulator is n mod 10; the next firing
adds exactly one to elapsed_ms (modulo 2^32) when it is a tenth tick and
leaves it unchanged otherwise, and elapsed_ms decreases only by wrapping from
2^32 - 1 to 0. -/
theorem timer0_irq_elapsed_closed_form (n : Nat) :
    (ticks n boot).g_elaspsed_time_in_ms = (n / 10) % 2 ^ 32 ∧
    (ticks n boot).timer0_overflow_counter = n % 10 ∧
    ((n + 1) % 10 = 0 →
      (ticks (n + 1) boot).g_elaspsed_time_in_ms
        = ((ticks n boot).g_elaspsed_time_in_ms + 1) % 2 ^ 32) ∧
    ((n + 1) % 10 ≠ 0 →
      (ticks (n + 1) boot).g_elaspsed_time_in_ms
        = (ticks n boot).g_elaspsed_time_in_ms) ∧
    ((ticks (n + 1) boot).g_elaspsed_time_in_ms
        < (ticks n boot).g_elaspsed_time_in_ms →
      (ticks n boot).g_elaspsed_time_in_ms = 2 ^ 32 - 1 ∧
      (ticks (n + 1) boot).g_elaspsed_time_in_ms = 0) := by
  obtain ⟨hc, he⟩ := ticks_boot_fields n
  obtain ⟨_, he'⟩ := ticks_boot_fields (n + 1)
  rw [he', he]
  refine ⟨rfl, hc, ?_, ?_, ?_⟩
  · intro h; omega
  · intro h; omega
  · intro h; omega

/-- Witness of C1: the tenth firing takes elapsed_ms from 0 to 1, and the
firing that follows 42949672959 firings wraps elapsed_ms from 2^32 - 1 to 0. -/
theorem timer0_irq_elapsed_closed_form_witness :
    ((9 + 1) % 10 = 0 ∧
      (ticks (9 + 1) boot).g_elaspsed_time_in_ms
        = ((ticks 9 boot).g_elaspsed_time_in_ms + 1) % 2 ^ 32) ∧
    ((ticks (42949672959 + 1) boot).g_elaspsed_time_in_ms
        < (ticks 42949672959 boot).g_elaspsed_time_in_ms ∧
      (ticks 42949672959 boot).g_elaspsed_time_in_ms = 2 ^ 32 - 1 ∧
      (ticks (42949672959 + 1) boot).g_elaspsed_time_in_ms = 0) :=
  have hlt : (ticks (42949672959 + 1) boot).g_elaspsed_time_in_ms
      < (ticks 42949672959 boot).g_elaspsed_time_in_ms := by
    rw [(ticks_boot_fields (42949672959 + 1)).2, (ticks_boot_fields 42949672959).2]
    norm_num
  ⟨⟨by decide, (timer0_irq_elapsed_closed_form 9).2.2.1 (by decide)⟩,
    hlt, (timer0_irq_elapsed_closed_form 42949672959).2.2.2.2 hlt⟩

theorem timer0_irq_feed_iff (s : State) :
    (timer0_irq s).g_is_need_to_feed_the_watchdog ≠ 0 ↔
      s.g_is_need_to_feed_the_watchdog ≠ 0 ∨
      ((timer0_irq s).g_elaspsed_time_in_ms ≠ s.g_elaspsed_time_in_ms ∧
        (timer0_irq s).g_elaspsed_time_in_ms % 500 = 0) := by
  have hne : (s.g_elaspsed_time_in_ms + 1) % 2 ^ 32 ≠ s.g_elaspsed_time_in_ms := by
    omega
  by_cases h : 10 ≤ (s.timer0_overflow_counter + 1) % 256
  · rw [timer0_irq_roll _ h]
    dsimp only
    split_ifs with h5 <;> simp_all
  · rw [timer0_irq_keep _ h]
    simp

theorem timer0_irq_print_iff (s : State) :
    (timer0_irq s).g_is_need_to_print_time ≠ 0 ↔
      s.g_is_need_to_print_time ≠ 0 ∨
      ((timer0_irq s).g_elaspsed_time_in_ms ≠ s.g_elaspsed_time_in_ms ∧
        (timer0_irq s).g_elaspsed_time_in_ms % 1000 = 0) := by
  have hne : (s.g_elaspsed_time_in_ms + 1) % 2 ^ 32 ≠ s.g_elaspsed_time_in_ms := by
    omega
  by_cases h : 10 ≤ (s.timer0_overflow_counter + 1) % 256
  · rw [timer0_irq_roll _ h]
    dsimp only
    split_ifs with h5 <;> simp_all
  · rw [timer0_irq_keep _ h]
    simp

theorem timer0_irq_flag_iff (f : Flag) (s : State) :
    f.value (timer0_irq s) ≠ 0 ↔ f.value s ≠ 0 ∨ reaches_multiple f.interval s := by
  cases f
  · exact timer0_irq_feed_iff s
  · exact timer0_irq_print_iff s

/-- C2: for every state, after one firing of timer0_irq the FeedWatchdog
flag is set iff it was set before or the firing changed elapsed_ms to a
value that is 0 modulo 500, and the PrintHeartbeat flag is set iff it was set
before or the firing changed elapsed_ms to a value that is 0 modulo 1000; a
set flag is never cleared by the handler. -/
theorem timer0_irq_flags (s : State) :
    ((timer0_irq s).g_is_need_to_feed_the_watchdog ≠ 0 ↔
      s.g_is_need_to_feed_the_watchdog ≠ 0 ∨
      ((timer0_irq s).g_elaspsed_time_in_ms ≠ s.g_elaspsed_time_in_ms ∧
        (timer0_irq s).g_elaspsed_time_in_ms % 500 = 0)) ∧
    ((timer0_irq s).g_is_need_to_print_time ≠ 0 ↔
      s.g_is_need_to_print_time ≠ 0 ∨
      ((timer0_irq s).g_elaspsed_time_in_ms ≠ s.g_elaspsed_time_in_ms ∧
        (timer0_irq s).g_elaspsed_time_in_ms % 1000 = 0)) ∧
    (s.g_is_need_to_feed_the_watchdog ≠ 0 →
      (timer0_irq s).g_is_need_to_feed_the_watchdog ≠ 0) ∧
    (s.g_is_need_to_print_time ≠ 0 →
      (timer0_irq s).g_is_need_to_print_time ≠ 0) :=
  ⟨timer0_irq_feed_iff s, timer0_irq_print_iff s,
    fun h => (timer0_irq_feed_iff s).2 (Or.inl h),
    fun h => (timer0_irq_print_iff s).2 (Or.inl h)⟩

/-- Witness of C2: in the state with accumulator 9, elapsed_ms = 499 and
only PrintHeartbeat set, the flag that is set stays set across the firing. -/
theorem timer0_irq_flags_witness :
    (1 : Nat) ≠ 0 ∧
    (timer0_irq
      { timer0_overflow_counter := 9, g_elaspsed_time_in_ms := 499,
        g_is_need_to_feed_the_watchdog := 0,
        g_is_need_to_print_time := 1 }).g_is_need_to_print_time ≠ 0 :=
  ⟨by decide,
    (timer0_irq_flags
      { timer0_overflow_counter := 9, g_elaspsed_time_in_ms := 499,
        g_is_need_to_feed_the_watchdog := 0,
        g_is_need_to_print_time := 1 }).2.2.2 (by decide)⟩

/-! ## One pass of the dispatcher -/

theorem run_event_loop_state (s : State) (r : Esb) :
    (run_event_loop s r).1 =
      { s with g_is_need_to_feed_the_watchdog := 0, g_is_need_to_print_time := 0 } := by
  obtain ⟨c, e, fd, pt⟩ := s
  simp only [run_event_loop, step_feed_dog, step_esb, step_print_time]
  by_cases hp : pt = 0 <;> by_cases hr : r.ready = 0 <;> by_cases hf : fd = 0 <;>
    simp [hp, hr, hf]

theorem run_event_loop_log (s : State) (r : Esb) :
    (run_event_loop s r).2 =
      (if s.g_is_need_to_print_time ≠ 0 then
          [Action.printf
            (" " ++ fmt_lu (s.g_elaspsed_time_in_ms / 1000) ++ " sec\r\n")]
        else [])
      ++ Action.is_esb_received_data r.ready
      :: ((if r.ready ≠ 0 then esb_body r else [])
      ++ (if s.g_is_need_to_feed_the_watchdog ≠ 0 then [Action.hal_wdog_restart]
        else [])) := by
  obtain ⟨c, e, fd, pt⟩ := s
  simp only [run_event_loop, step_feed_dog, step_esb, step_print_time,
    get_elasped_time_in_ms]
  by_cases hp : pt = 0 <;> by_cases hr : r.ready = 0 <;> by_cases hf : fd = 0 <;>
    simp [hp, hr, hf]

theorem fetch_not_mem_packet_trace (r : Esb) :
    Action.esb_fetch_received_data ∉ packet_trace r := by
  simp [packet_trace]

theorem release_not_mem_packet_trace (r : Esb) :
    Action.esb_receiving_event_has_been_done ∉ packet_trace r := by
  simp [packet_trace]

theorem uart_text_append (a b : List Action) :
    uart_text (a ++ b) = uart_text a ++ uart_text b := by
  induction a with
  | nil => simp [uart_text]
  | cons x xs ih =>
    cases x <;> simp [uart_text, ih, String.append_assoc]

/-- C4: in one pass of run_event_loop, every call of esb_fetch_received_data
is preceded in the same pass by a poll is_esb_received_data that returned a
non-zero value; when the poll returns zero the pass makes no fetch and no
release call and its only possible output is the heartbeat line, so no packet
trace is emitted. -/
theorem fetch_only_after_ready (s : State) (r : Esb) :
    (∀ pre post, (run_event_loop s r).2 = pre ++ Action.esb_fetch_received_data :: post →
      ∃ v, v ≠ 0 ∧ Action.is_esb_received_data v ∈ pre) ∧
    (r.ready = 0 →
      Action.esb_fetch_received_data ∉ (run_event_loop s r).2 ∧
      Action.esb_receiving_event_has_been_done ∉ (run_event_loop s r).2 ∧
      uart_text (run_event_loop s r).2 =
        (if s.g_is_need_to_print_time ≠ 0 then
          " " ++ fmt_lu (s.g_elaspsed_time_in_ms / 1000) ++ " sec\r\n"
        else "")) := by
  constructor
  · intro pre post h
    rw [run_event_loop_log] at h
    by_cases hr : r.ready = 0
    · exfalso
      have hmem : Action.esb_fetch_received_data ∈
          pre ++ Action.esb_fetch_received_data :: post := by simp
      rw [← h] at hmem
      simp only [hr, ne_eq, not_true_eq_false, if_false] at hmem
      split_ifs at hmem <;> simp at hmem
    · refine ⟨r.ready, hr, ?_⟩
      simp only [ne_eq, hr, not_false_eq_true, if_true, esb_body] at h
      have h' : ((if ¬ s.g_is_need_to_print_time = 0 then
            [Action.printf
              (" " ++ fmt_lu (s.g_elaspsed_time_in_ms / 1000) ++ " sec\r\n")]
          else []) ++ [Action.is_esb_received_data r.ready])
          ++ Action.esb_fetch_received_data ::
            (packet_trace r ++ [Action.esb_receiving_event_has_been_done]
              ++ (if ¬ s.g_is_need_to_feed_the_watchdog = 0 then
                [Action.hal_wdog_restart] else []))
          = pre ++ Action.esb_fetch_received_data :: post := by
        rw [← h]; simp
      rcases List.append_eq_append_iff.1 h' with ⟨a', ha, _⟩ | ⟨c', hc, hc2⟩
      · rw [ha]; simp
      · cases c' with
        | nil =>
          simp only [List.append_nil] at hc
          rw [← hc]; simp
        | cons x xs =>
          exfalso
          simp only [List.cons_append, List.cons.injEq] at hc2
          have hx : Action.esb_fetch_received_data ∈
              (if ¬ s.g_is_need_to_print_time = 0 then
                [Action.printf
                  (" " ++ fmt_lu (s.g_elaspsed_time_in_ms / 1000) ++ " sec\r\n")]
              else []) ++ [Action.is_esb_received_data r.ready] := by
            rw [hc, ← hc2.1]; simp
          split_ifs at hx <;> simp at hx
  · intro hr
    rw [run_event_loop_log]
    simp only [hr, ne_eq, not_true_eq_false, if_false]
    refine ⟨?_, ?_, ?_⟩
    · split_ifs <;> simp
    · split_ifs <;> simp
    · split_ifs <;> simp [uart_text]

/-- Witness of C4: from boot, a pass that fetches the packet [0xAB, 0xCD]
of pipe 2 has the poll (returning 1) before the fetch, and a pass whose poll
returns 0 makes no fetch and no release and prints nothing. -/
theorem fetch_only_after_ready_witness :
    ((run_event_loop boot (esb_packet 2 [0xAB, 0xCD])).2 =
        [Action.is_esb_received_data 1] ++ Action.esb_fetch_received_data ::
          (packet_trace (esb_packet 2 [0xAB, 0xCD])
            ++ [Action.esb_receiving_event_has_been_done]) ∧
      ∃ v, v ≠ 0 ∧ Action.is_esb_received_data v ∈ [Action.is_esb_received_data 1]) ∧
    (esb_idle.ready = 0 ∧
      Action.esb_fetch_received_data ∉ (run_event_loop boot esb_idle).2 ∧
      Action.esb_receiving_event_has_been_done ∉ (run_event_loop boot esb_idle).2 ∧
      uart_text (run_event_loop boot esb_idle).2 = "") :=
  have hlog : (run_event_loop boot (esb_packet 2 [0xAB, 0xCD])).2 =
      [Action.is_esb_received_data 1] ++ Action.esb_fetch_received_data ::
        (packet_trace (esb_packet 2 [0xAB, 0xCD])
          ++ [Action.esb_receiving_event_has_been_done]) := by decide
  ⟨⟨hlog, (fetch_only_after_ready boot (esb_packet 2 [0xAB, 0xCD])).1 _ _ hlog⟩,
    rfl, (fetch_only_after_ready boot esb_idle).2 rfl⟩

/-- C5: the calls of one pass of run_event_loop are, in this order: the
heartbeat printf (present iff PrintHeartbeat was set at entry), the poll
is_esb_received_data, then the fetch, the packet trace and the release
(present iff the poll returned non-zero), then hal_wdog_restart (present iff
FeedWatchdog was set at entry). -/
theorem run_event_loop_order (s : State) (r : Esb) :
    (run_event_loop s r).2 =
      (if s.g_is_need_to_print_time ≠ 0 then
          [Action.printf
            (" " ++ fmt_lu (s.g_elaspsed_time_in_ms / 1000) ++ " sec\r\n")]
        else [])
      ++ [Action.is_esb_received_data r.ready]
      ++ (if r.ready ≠ 0 then
          [Action.esb_fetch_received_data] ++ packet_trace r
            ++ [Action.esb_receiving_event_has_been_done]
        else [])
      ++ (if s.g_is_need_to_feed_the_watchdog ≠ 0 then [Action.hal_wdog_restart]
        else []) := by
  rw [run_event_loop_log]
  simp [esb_body]

/-! ## Runs: flags across ticks and passes -/

theorem pass_clears_flag (f : Flag) (s : State) (r : Esb) :
    f.value (run_event_loop s r).1 = 0 := by
  rw [run_event_loop_state]
  cases f <;> rfl

theorem ticks_boot_flag_values (n : Nat) (hn : n < 42949672960) :
    (ticks n boot).g_is_need_to_feed_the_watchdog = (if 500 ≤ n / 10 then 1 else 0) ∧
    (ticks n boot).g_is_need_to_print_time = (if 1000 ≤ n / 10 then 1 else 0) := by
  induction n with
  | zero => simp [ticks, boot]
  | succ n ih =>
    obtain ⟨hfd, hpt⟩ := ih (by omega)
    obtain ⟨hc, he⟩ := ticks_boot_fields n
    simp only [ticks]
    by_cases h : 10 ≤ ((ticks n boot).timer0_overflow_counter + 1) % 256
    · rw [timer0_irq_roll _ h]
      dsimp only
      rw [hfd, hpt, he]
      rw [hc] at h
      have hk : n % 10 = 9 := by omega
      have h1 : (n + 1) / 10 = n / 10 + 1 := by omega
      have h2 : (n / 10 % 2 ^ 32 + 1) % 2 ^ 32 = n / 10 + 1 := by omega
      rw [h1, h2]
      constructor
      · split_ifs <;> omega
      · split_ifs <;> omega
    · rw [timer0_irq_keep _ h]
      dsimp only
      rw [hfd, hpt]
      rw [hc] at h
      have h1 : (n + 1) / 10 = n / 10 := by omega
      rw [h1]
      exact ⟨rfl, rfl⟩

theorem ticks_boot_state (n : Nat) (hn : n < 42949672960) :
    ticks n boot =
      { timer0_overflow_counter := n % 10
        g_elaspsed_time_in_ms := n / 10
        g_is_need_to_feed_the_watchdog := if 500 ≤ n / 10 then 1 else 0
        g_is_need_to_print_time := if 1000 ≤ n / 10 then 1 else 0 } := by
  obtain ⟨hc, he⟩ := ticks_boot_fields n
  obtain ⟨hfd, hpt⟩ := ticks_boot_flag_values n hn
  have he' : (ticks n boot).g_elaspsed_time_in_ms = n / 10 := by
    rw [he]; omega
  cases hs : ticks n boot with
  | mk c e fd pt =>
    rw [hs] at hc he' hfd hpt
    simp only at hc he' hfd hpt
    rw [hc, he', hfd, hpt]

theorem trace_loop_eq_range' (len : Nat) (hlen : len < 256) :
    ∀ fuel i, i ≤ len → len - i < fuel → trace_loop len fuel i = List.range' i (len - i) := by
  intro fuel
  induction fuel with
  | zero => intro i _ h; omega
  | succ fuel ih =>
    intro i hi hf
    by_cases hlt : i < len
    · have hmod : (i + 1) % 256 = i + 1 := Nat.mod_eq_of_lt (by omega)
      have hsub : len - i = (len - (i + 1)) + 1 := by omega
      rw [trace_loop, if_pos hlt, hmod, ih (i + 1) (by omega) (by omega), hsub,
        List.range'_succ]
    · have : len - i = 0 := by omega
      rw [trace_loop, if_neg hlt, this]
      rfl

theorem trace_loop_eq_range (len : Nat) (hlen : len < 256) :
    trace_loop len 256 0 = List.range len := by
  rw [trace_loop_eq_range' len hlen 256 0 (Nat.zero_le _) (by omega), List.range_eq_range']
  rfl

theorem map_range_buffer (buffer : Nat → Nat) (payload : List Nat) (g : Nat → String)
    (hbuf : ∀ i (h : i < payload.length), buffer i = payload[i]) :
    (List.range payload.length).map (fun i => g (buffer i)) = payload.map g := by
  apply List.ext_getElem
  · simp
  · intro i h1 h2
    simp only [List.length_map, List.length_range] at h1
    simp [hbuf i h1]

set_option maxRecDepth 100000 in
theorem fmt_02bx_eq_hex2 : ∀ b, b < 256 → fmt_02bx b = hex2 b := by
  decide

theorem uart_text_map_printf (l : List Nat) (tok : Nat → String) :
    uart_text (l.map (fun b => Action.printf (" " ++ tok b))) = spaced_tokens tok l := by
  induction l with
  | nil => rfl
  | cons x xs ih => simp [uart_text, ih, spaced_tokens]

theorem esb_packet_buffer (pipe : Nat) (payload : List Nat) (i : Nat)
    (h : i < payload.length) : (esb_packet pipe payload).buffer i = payload[i] := by
  simp [esb_packet, List.getElem?_eq_getElem h]

theorem packet_trace_texts_eq (r : Esb) (pipe : Nat) (payload : List Nat)
    (hpipe : r.pipe = pipe) (hp : pipe < 256)
    (hlen : r.len = payload.length) (hl : payload.length < 256)
    (hbuf : ∀ i (h : i < payload.length), r.buffer i = payload[i])
    (hbytes : ∀ b ∈ payload, b < 256) :
    packet_trace_texts r =
      ("rf rcv in pipe = " ++ toString pipe ++ ", len = " ++ toString payload.length ++ "::")
      :: (payload.map (fun b => " " ++ hex2 b) ++ ["\r\n"]) := by
  have h1 : fmt_bu r.pipe = toString pipe := by
    rw [hpipe, fmt_bu, Nat.mod_eq_of_lt hp]
  have h2 : fmt_bu r.len = toString payload.length := by
    rw [hlen, fmt_bu, Nat.mod_eq_of_lt hl]
  have h3 : r.len % 256 = payload.length := by
    rw [hlen, Nat.mod_eq_of_lt hl]
  have h4 : payload.map (fun b => " " ++ fmt_02bx b)
      = payload.map (fun b => " " ++ hex2 b) := by
    apply List.map_congr_left
    intro b hb
    rw [fmt_02bx_eq_hex2 b (hbytes b hb)]
  rw [packet_trace_texts, h1, h2, h3, trace_loop_eq_range _ hl,
    map_range_buffer r.buffer payload (fun b => " " ++ fmt_02bx b) hbuf, h4]
  simp

theorem uart_text_map_texts (l : List String) :
    uart_text (l.map Action.printf) = String.join l := by
  have hfold : ∀ (xs : List String) (a b : String),
      List.foldl (fun r s => r ++ s) (a ++ b) xs = a ++ List.foldl (fun r s => r ++ s) b xs := by
    intro xs
    induction xs with
    | nil => intro a b; rfl
    | cons x xs ih => intro a b; simp only [List.foldl_cons, String.append_assoc, ih]
  induction l with
  | nil => rfl
  | cons x xs ih =>
    simp only [List.map_cons, uart_text, ih, String.join, List.foldl_cons]
    have := hfold xs x ""
    simpa using this.symm

theorem join_spaced (tok : Nat → String) (l : List Nat) (tail : List String) :
    String.join (l.map (fun b => " " ++ tok b) ++ tail)
      = spaced_tokens tok l ++ String.join tail := by
  rw [← uart_text_map_texts, List.map_append, uart_text_append, List.map_map,
    uart_text_map_texts tail]
  congr 1
  exact uart_text_map_printf l tok

/-- C7, the claim as stated fails for pipe 2 and payload [0xAB, 0xCD]: the
pass emits the hexadecimal digits in lower case, "rf rcv in pipe = 2, len =
2:: ab cd" and the line end, which is not the text with "AB CD" that the
claim gives. -/
theorem packet_trace_upper_case_fails :
    uart_text (run_event_loop boot (esb_packet 2 [0xAB, 0xCD])).2
      = "rf rcv in pipe = 2, len = 2:: ab cd\r\n" ∧
    uart_text (run_event_loop boot (esb_packet 2 [0xAB, 0xCD])).2
      ≠ "rf rcv in pipe = 2, len = 2:: AB CD\r\n" ∧
    uart_text (run_event_loop boot (esb_packet 2 [0xAB, 0xCD])).2
      ≠ "rf rcv in pipe = " ++ toString 2 ++ ", len = " ++ toString 2 ++ "::"
        ++ spaced_tokens hex2_upper [0xAB, 0xCD] ++ "\r\n" := by
  decide

/-- C7, amended: for every pipe id and payload (bytes, with the length in
8 bits) that the fetch of a pass returns, the pass makes, between the fetch
and the release, exactly the printf calls of the packet trace, whose text is
"rf rcv in pipe = <pipe>, len = <len>::" with pipe and len in unsigned
decimal, then for each payload byte in order a space and the byte as two
hexadecimal digits in lower case (0xAB is rendered "ab"), then the line end;
the whole output of the pass is this text, preceded by the heartbeat line
when PrintHeartbeat was set. -/
theorem packet_trace_text (s : State) (r : Esb) (pipe : Nat) (payload : List Nat)
    (hready : r.ready ≠ 0)
    (hpipe : r.pipe = pipe) (hp : pipe < 256)
    (hlen : r.len = payload.length) (hl : payload.length < 256)
    (hbuf : ∀ i (h : i < payload.length), r.buffer i = payload[i])
    (hbytes : ∀ b ∈ payload, b < 256) :
    (∃ pre post, (run_event_loop s r).2 =
      pre ++ [Action.esb_fetch_received_data] ++ packet_trace r
        ++ [Action.esb_receiving_event_has_been_done] ++ post) ∧
    uart_text (packet_trace r) =
      "rf rcv in pipe = " ++ toString pipe ++ ", len = " ++ toString payload.length ++ "::"
        ++ spaced_tokens hex2 payload ++ "\r\n" ∧
    uart_text (run_event_loop s r).2 =
      (if s.g_is_need_to_print_time ≠ 0 then
        " " ++ fmt_lu (s.g_elaspsed_time_in_ms / 1000) ++ " sec\r\n" else "")
      ++ uart_text (packet_trace r) := by
  refine ⟨?_, ?_, ?_⟩
  · refine ⟨(if s.g_is_need_to_print_time ≠ 0 then
          [Action.printf
            (" " ++ fmt_lu (s.g_elaspsed_time_in_ms / 1000) ++ " sec\r\n")]
        else []) ++ [Action.is_esb_received_data r.ready],
      (if s.g_is_need_to_feed_the_watchdog ≠ 0 then [Action.hal_wdog_restart] else []), ?_⟩
    rw [run_event_loop_log, if_pos hready]
    simp [esb_body]
  · rw [packet_trace, packet_trace_texts_eq r pipe payload hpipe hp hlen hl hbuf hbytes,
      uart_text_map_texts]
    have hcons : ∀ (x : String) (xs : List String),
        String.join (x :: xs) = x ++ String.join xs := by
      intro x xs
      rw [← uart_text_map_texts, ← uart_text_map_texts]; rfl
    rw [hcons, join_spaced, hcons]
    simp [String.join, String.append_assoc]
  · rw [run_event_loop_log, if_pos hready]
    simp only [uart_text_append, esb_body, uart_text, List.cons_append, List.nil_append]
    split_ifs <;> simp [uart_text, uart_text_append]

/-- Witness of C7: pipe 2 with payload [0xAB, 0xCD] gives the trace text
"rf rcv in pipe = 2, len = 2:: ab cd" followed by the line end. -/
theorem packet_trace_text_witness :
    uart_text (packet_trace (esb_packet 2 [0xAB, 0xCD]))
      = "rf rcv in pipe = 2, len = 2:: ab cd\r\n" :=
  ((packet_trace_text boot (esb_packet 2 [0xAB, 0xCD]) 2 [0xAB, 0xCD]
    (by decide) rfl (by decide) rfl (by decide)
    (esb_packet_buffer 2 [0xAB, 0xCD])
    (by decide)).2.1).trans (by decide)

/-- C8, the claim as stated fails at elapsed_ms = 1000: the state reached
after 10000 firings from boot has elapsed_ms = 1000 and PrintHeartbeat set,
and the pass from it emits a space before the digits, " 1 sec" and the line
end, which is not the text "1 sec" and the line end. -/
theorem heartbeat_without_space_fails :
    ticks 10000 boot =
      { timer0_overflow_counter := 0, g_elaspsed_time_in_ms := 1000,
        g_is_need_to_feed_the_watchdog := 1, g_is_need_to_print_time := 1 } ∧
    uart_text (run_event_loop
      { timer0_overflow_counter := 0, g_elaspsed_time_in_ms := 1000,
        g_is_need_to_feed_the_watchdog := 1, g_is_need_to_print_time := 1 } esb_idle).2
      = " 1 sec\r\n" ∧
    uart_text (run_event_loop
      { timer0_overflow_counter := 0, g_elaspsed_time_in_ms := 1000,
        g_is_need_to_feed_the_watchdog := 1, g_is_need_to_print_time := 1 } esb_idle).2
      ≠ "1 sec\r\n" := by
  refine ⟨?_, by decide, by decide⟩
  rw [ticks_boot_state 10000 (by norm_num)]
  norm_num

/-- C8, amended: for every elapsed_ms value (32 bits), when run_event_loop
runs with PrintHeartbeat set, the first call of the pass is the printf of the
heartbeat line, whose text is one space, then the unsigned decimal rendering
of elapsed_ms / 1000 under integer division, then " sec" and the line end;
the output of the pass is this line, followed by the packet trace when the
poll returned non-zero. -/
theorem heartbeat_text (s : State) (r : Esb)
    (hflag : s.g_is_need_to_print_time ≠ 0)
    (hms : s.g_elaspsed_time_in_ms < 2 ^ 32) :
    (∃ rest, (run_event_loop s r).2 =
      Action.printf (" " ++ toString (s.g_elaspsed_time_in_ms / 1000) ++ " sec\r\n")
        :: Action.is_esb_received_data r.ready :: rest) ∧
    uart_text (run_event_loop s r).2 =
      " " ++ toString (s.g_elaspsed_time_in_ms / 1000) ++ " sec\r\n"
        ++ (if r.ready ≠ 0 then uart_text (packet_trace r) else "") := by
  have hfmt : fmt_lu (s.g_elaspsed_time_in_ms / 1000)
      = toString (s.g_elaspsed_time_in_ms / 1000) := by
    have hlt : s.g_elaspsed_time_in_ms / 1000 < 2 ^ 32 :=
      lt_of_le_of_lt (Nat.div_le_self _ _) hms
    rw [fmt_lu, Nat.mod_eq_of_lt hlt]
  rw [run_event_loop_log, if_pos hflag, hfmt]
  refine ⟨⟨_, rfl⟩, ?_⟩
  simp only [uart_text_append, esb_body, uart_text, List.cons_append, List.nil_append]
  split_ifs <;> simp [uart_text, uart_text_append]

/-- Witness of C8: at elapsed_ms = 1000 with PrintHeartbeat set and no
packet pending, the output of the pass is " 1 sec" and the line end. -/
theorem heartbeat_text_witness :
    uart_text (run_event_loop
      { timer0_overflow_counter := 0, g_elaspsed_time_in_ms := 1000,
        g_is_need_to_feed_the_watchdog := 1, g_is_need_to_print_time := 1 } esb_idle).2
      = " 1 sec\r\n" :=
  ((heartbeat_text
      { timer0_overflow_counter := 0, g_elaspsed_time_in_ms := 1000,
        g_is_need_to_feed_the_watchdog := 1, g_is_need_to_print_time := 1 } esb_idle
      (by decide) (by decide)).2).trans (by decide)

/-! ## The watchdog timeout configured by main -/

/-- C10: with WDOG_TIMEOUT_IN_SEC = 3 * 500 / 1000 = 1 in integer
arithmetic, main passes 1 * 32768 / 256 = 128 to hal_wdog_init; the timeout
this start value denotes, 128 * 256 / 32768 = 1 second, is 1000 ms and is
strictly greater than FEED_DOG_INTERVAL_IN_MS = 500 ms. -/
theorem wdog_timeout_exceeds_feed_interval :
    WDOG_TIMEOUT_IN_SEC = 1 ∧
    hal_wdog_init_arg = 128 ∧
    wdog_timeout_in_sec hal_wdog_init_arg * 1000 = 1000 ∧
    FEED_DOG_INTERVAL_IN_MS = 500 ∧
    FEED_DOG_INTERVAL_IN_MS < wdog_timeout_in_sec hal_wdog_init_arg * 1000 := by
  decide

/-! ## Packets over a run: traces and releases -/

theorem run_cons_log (s : State) (e : Event) (es : List Event) :
    (run s (e :: es)).2 = (step s e).2 ++ (run (step s e).1 es).2 := rfl

theorem packet_traces_printfs (texts : List String) :
    ∀ (acc : List String) (rest : List Action),
      packet_traces (some acc)
        (texts.map Action.printf ++ Action.esb_receiving_event_has_been_done :: rest)
        = (acc ++ texts) :: packet_traces none rest := by
  induction texts with
  | nil => intro acc rest; simp [packet_traces]
  | cons t ts ih => intro acc rest; simp [packet_traces, ih]

theorem packet_traces_pass (s : State) (r : Esb) (rest : List Action) :
    packet_traces none ((run_event_loop s r).2 ++ rest) =
      (if r.ready ≠ 0 then [packet_trace_texts r] else []) ++ packet_traces none rest := by
  rw [run_event_loop_log]
  simp only [esb_body, packet_trace]
  generalize packet_trace_texts r = texts
  by_cases hp : s.g_is_need_to_print_time = 0 <;> by_cases hr : r.ready = 0 <;>
    by_cases hf : s.g_is_need_to_feed_the_watchdog = 0 <;>
    simp [hp, hr, hf, packet_traces, packet_traces_printfs]

theorem packet_traces_run (evs : List Event) :
    ∀ s : State, packet_traces none (run s evs).2 = (ready_passes evs).map packet_trace_texts := by
  induction evs with
  | nil => intro s; rfl
  | cons e es ih =>
    intro s
    rw [run_cons_log]
    cases e with
    | tick => simpa [step, ready_passes] using ih _
    | pass r =>
      simp only [step, packet_traces_pass, ih, ready_passes]
      by_cases hr : r.ready = 0 <;> simp [hr]

theorem release_discipline_printfs (texts : List String) (pending : Bool)
    (rest : List Action) :
    release_discipline pending (texts.map Action.printf ++ rest)
      = release_discipline pending rest := by
  induction texts with
  | nil => rfl
  | cons t ts ih => simpa [release_discipline] using ih

theorem release_discipline_pass (s : State) (r : Esb) (rest : List Action) :
    release_discipline false ((run_event_loop s r).2 ++ rest)
      = release_discipline false rest := by
  rw [run_event_loop_log]
  simp only [esb_body, packet_trace]
  generalize packet_trace_texts r = texts
  by_cases hp : s.g_is_need_to_print_time = 0 <;> by_cases hr : r.ready = 0 <;>
    by_cases hf : s.g_is_need_to_feed_the_watchdog = 0 <;>
    simp [hp, hr, hf, release_discipline, release_discipline_printfs]

theorem release_discipline_run (evs : List Event) :
    ∀ s : State, release_discipline false (run s evs).2 = true := by
  induction evs with
  | nil => intro s; rfl
  | cons e es ih =>
    intro s
    rw [run_cons_log]
    cases e with
    | tick => simpa [step] using ih _
    | pass r => simp only [step, release_discipline_pass, ih]

theorem count_calls_pass (s : State) (r : Esb) :
    List.count Action.esb_fetch_received_data (run_event_loop s r).2
        = (if r.ready ≠ 0 then 1 else 0) ∧
    List.count Action.esb_receiving_event_has_been_done (run_event_loop s r).2
        = (if r.ready ≠ 0 then 1 else 0) := by
  have h1 : List.count Action.esb_fetch_received_data (packet_trace r) = 0 :=
    List.count_eq_zero_of_not_mem (fetch_not_mem_packet_trace r)
  have h2 : List.count Action.esb_receiving_event_has_been_done (packet_trace r) = 0 :=
    List.count_eq_zero_of_not_mem (release_not_mem_packet_trace r)
  rw [run_event_loop_log]
  by_cases hp : s.g_is_need_to_print_time = 0 <;> by_cases hr : r.ready = 0 <;>
    by_cases hf : s.g_is_need_to_feed_the_watchdog = 0 <;>
    simp [hp, hr, hf, esb_body, List.count_cons, List.count_append, h1, h2]

theorem count_calls_run (evs : List Event) :
    ∀ s : State,
      List.count Action.esb_fetch_received_data (run s evs).2 = (ready_passes evs).length ∧
      List.count Action.esb_receiving_event_has_been_done (run s evs).2
        = (ready_passes evs).length := by
  induction evs with
  | nil => intro s; exact ⟨rfl, rfl⟩
  | cons e es ih =>
    intro s
    rw [run_cons_log]
    cases e with
    | tick => simpa [step, ready_passes] using ih _
    | pass r =>
      obtain ⟨h1, h2⟩ := count_calls_pass s r
      obtain ⟨i1, i2⟩ := ih (run_event_loop s r).1
      simp only [step, List.count_append, h1, h2, i1, i2, ready_passes]
      by_cases hr : r.ready = 0 <;> simp [hr]; omega

theorem presented_lines (len : Nat) (hlen : len < 256) :
    ∀ (rs : List Esb) (packets : List Packet),
      List.Forall₂ holds_packet rs packets →
      (∀ p ∈ packets, p.payload.length = len ∧ p.pipe < 256 ∧ ∀ b ∈ p.payload, b < 256) →
      rs.map packet_trace_texts = packets.map packet_line := by
  intro rs packets h
  induction h with
  | nil => intro _; rfl
  | @cons r p rs' ps' hrp _ ih =>
    intro hall
    obtain ⟨hl, hpipe, hbytes⟩ := hall p (List.mem_cons_self _ _)
    obtain ⟨_, h1, h2, h3⟩ := hrp
    rw [List.map_cons, List.map_cons, ih (fun q hq => hall q (List.mem_cons_of_mem _ hq)),
      packet_trace_texts_eq r p.pipe p.payload h1 hpipe h2 (by omega) h3 hbytes]
    rfl

set_option maxRecDepth 100000 in
theorem hex_token_value_hex2 : ∀ b, b < 256 → hex_token_value (" " ++ hex2 b) = some b := by
  decide

theorem trace_tokens_packet_line (p : Packet) :
    trace_tokens (packet_line p) = p.payload.map (fun b => " " ++ hex2 b) := by
  simp [trace_tokens, packet_line]

/-- C6: for every N and L, with ESB_MAX_PAYLOAD_LEN a bound that fits the
8-bit length, and every run of tick firings and dispatcher passes over which
the ESB module presents N packets of L <= ESB_MAX_PAYLOAD_LEN bytes each, once
each: the log of the run has exactly N packet traces; the i-th trace is the
header of the i-th packet, then exactly L tokens whose hexadecimal values are
the bytes of the i-th packet in payload order, then the line end; fetch and
release are each called exactly N times, and every fetch is followed by
exactly one release before the next poll. -/
theorem packet_round_trip (ESB_MAX_PAYLOAD_LEN len : Nat) (s : State)
    (evs : List Event) (packets : List Packet)
    (hmax : ESB_MAX_PAYLOAD_LEN < 256) (hlen : len ≤ ESB_MAX_PAYLOAD_LEN)
    (hpres : presents evs packets)
    (hpk : ∀ p ∈ packets, p.payload.length = len ∧ p.pipe < 256 ∧ ∀ b ∈ p.payload, b < 256) :
    (packet_traces none (run s evs).2).length = packets.length ∧
    packet_traces none (run s evs).2 = packets.map packet_line ∧
    (∀ t ∈ packet_traces none (run s evs).2, (trace_tokens t).length = len) ∧
    (packet_traces none (run s evs).2).map (fun t => (trace_tokens t).map hex_token_value)
      = packets.map (fun p => p.payload.map some) ∧
    List.count Action.esb_fetch_received_data (run s evs).2 = packets.length ∧
    List.count Action.esb_receiving_event_has_been_done (run s evs).2 = packets.length ∧
    release_discipline false (run s evs).2 = true := by
  have hlines : packet_traces none (run s evs).2 = packets.map packet_line := by
    rw [packet_traces_run, presented_lines len (by omega) _ _ hpres hpk]
  have hN : (ready_passes evs).length = packets.length := hpres.length_eq
  obtain ⟨hc1, hc2⟩ := count_calls_run evs s
  refine ⟨by rw [hlines, List.length_map], hlines, ?_, ?_, by rw [hc1, hN], by rw [hc2, hN],
    release_discipline_run evs s⟩
  · intro t ht
    rw [hlines, List.mem_map] at ht
    obtain ⟨p, hp, rfl⟩ := ht
    rw [trace_tokens_packet_line, List.length_map]
    exact (hpk p hp).1
  · rw [hlines, List.map_map]
    apply List.map_congr_left
    intro p hp
    simp only [Function.comp, trace_tokens_packet_line, List.map_map]
    apply List.map_congr_left
    intro b hb
    exact hex_token_value_hex2 b ((hpk p hp).2.2 b hb)

theorem holds_esb_packet (pipe : Nat) (payload : List Nat) :
    holds_packet (esb_packet pipe payload) { pipe := pipe, payload := payload } :=
  ⟨by simp [esb_packet], rfl, rfl, esb_packet_buffer pipe payload⟩

/-- Witness of C6: two packets of two bytes, on pipes 2 and 1, presented in
the first and the last of three passes with a tick firing in between, give the
two traces with the tokens ab cd and 01 02, and two releases. -/
theorem packet_round_trip_witness :
    presents
      [Event.pass (esb_packet 2 [0xAB, 0xCD]), Event.tick, Event.pass esb_idle,
        Event.pass (esb_packet 1 [0x01, 0x02])]
      [{ pipe := 2, payload := [0xAB, 0xCD] }, { pipe := 1, payload := [0x01, 0x02] }] ∧
    packet_traces none (run boot
      [Event.pass (esb_packet 2 [0xAB, 0xCD]), Event.tick, Event.pass esb_idle,
        Event.pass (esb_packet 1 [0x01, 0x02])]).2
      = [["rf rcv in pipe = 2, len = 2::", " ab", " cd", "\r\n"],
         ["rf rcv in pipe = 1, len = 2::", " 01", " 02", "\r\n"]] ∧
    List.count Action.esb_receiving_event_has_been_done (run boot
      [Event.pass (esb_packet 2 [0xAB, 0xCD]), Event.tick, Event.pass esb_idle,
        Event.pass (esb_packet 1 [0x01, 0x02])]).2 = 2 :=
  have hpres : presents
      [Event.pass (esb_packet 2 [0xAB, 0xCD]), Event.tick, Event.pass esb_idle,
        Event.pass (esb_packet 1 [0x01, 0x02])]
      [{ pipe := 2, payload := [0xAB, 0xCD] }, { pipe := 1, payload := [0x01, 0x02] }] :=
    List.Forall₂.cons (holds_esb_packet 2 [0xAB, 0xCD])
      (List.Forall₂.cons (holds_esb_packet 1 [0x01, 0x02]) List.Forall₂.nil)
  have hround := packet_round_trip 32 2 boot
    [Event.pass (esb_packet 2 [0xAB, 0xCD]), Event.tick, Event.pass esb_idle,
      Event.pass (esb_packet 1 [0x01, 0x02])]
    [{ pipe := 2, payload := [0xAB, 0xCD] }, { pipe := 1, payload := [0x01, 0x02] }]
    (by decide) (by decide) hpres (by decide)
  ⟨hpres, hround.2.1.trans (by decide), hround.2.2.2.2.2.1⟩

/-! ## Watchdog service under nominal operation -/

theorem restart_mem_log_iff (s : State) (r : Esb) :
    Action.hal_wdog_restart ∈ (run_event_loop s r).2 ↔
      s.g_is_need_to_feed_the_watchdog ≠ 0 := by
  rw [run_event_loop_log]
  by_cases hp : s.g_is_need_to_print_time = 0 <;> by_cases hr : r.ready = 0 <;>
    by_cases hf : s.g_is_need_to_feed_the_watchdog = 0 <;>
    simp [hp, hr, hf, esb_body, packet_trace]

theorem in_block_bound (ms j : Nat) (seen : Bool) (s : State) (since : Nat)
    (h : in_block ms j seen s since) : since ≤ 5010 := by
  obtain ⟨hj, _, _, h0, h1⟩ := h
  by_cases hf : s.g_is_need_to_feed_the_watchdog = 0
  · obtain ⟨ha, hb⟩ := h0 hf
    by_cases hj10 : j < 10
    · have := ha hj10; omega
    · have := hb (by omega); omega
  · obtain ⟨ha, hb⟩ := h1 hf
    by_cases hj10 : j < 10
    · have := ha hj10; omega
    · rcases hb (by omega) with h | h <;> omega

theorem in_block_tick (ms j : Nat) (seen : Bool) (s : State) (since : Nat)
    (hms : ms + 1 < 2 ^ 32) (hj : j < 10) (h : in_block ms j seen s since) :
    in_block ms (j + 1) seen (timer0_irq s) (since + 1) := by
  obtain ⟨_, hc, he, h0, h1⟩ := h
  rw [if_pos hj] at hc he
  by_cases hroll : 10 ≤ (s.timer0_overflow_counter + 1) % 256
  · have hj9 : j = 9 := by rw [hc] at hroll; omega
    subst hj9
    have hms' : (ms + 1) % 2 ^ 32 = ms + 1 := Nat.mod_eq_of_lt hms
    rw [timer0_irq_roll _ hroll, he, hms']
    refine ⟨by omega, by simp, by simp, ?_, ?_⟩
    · intro hf
      dsimp only at hf
      by_cases hm : (ms + 1) % 500 = 0
      · rw [if_pos hm] at hf; omega
      · rw [if_neg hm] at hf
        have := (h0 hf).1 (by omega)
        refine ⟨fun hlt => by omega, fun _ => by omega⟩
    · intro hf
      refine ⟨fun hlt => by omega, fun _ => ?_⟩
      by_cases hs : s.g_is_need_to_feed_the_watchdog = 0
      · have := (h0 hs).1 (by omega)
        dsimp only at hf
        by_cases hm : (ms + 1) % 500 = 0
        · left; omega
        · rw [if_neg hm] at hf; exact absurd hs hf
      · obtain ⟨hm, hseen, hd⟩ := (h1 hs).1 (by omega)
        right; exact ⟨hm, hseen, by omega⟩
  · have hj9 : j + 1 < 10 := by rw [hc] at hroll; omega
    have hmod : (j + 1) % 256 = j + 1 := Nat.mod_eq_of_lt (by omega)
    rw [timer0_irq_keep _ hroll, hc, hmod]
    refine ⟨by omega, by simp [hj9], by simp [hj9, he], ?_, ?_⟩
    · intro hf
      have := (h0 hf).1 hj
      exact ⟨fun _ => by omega, fun h10 => by omega⟩
    · intro hf
      obtain ⟨hm, hseen, hd⟩ := (h1 hf).1 hj
      exact ⟨fun _ => ⟨hm, hseen, by omega⟩, fun h10 => by omega⟩

theorem in_block_pass (ms j : Nat) (seen : Bool) (s : State) (since : Nat) (r : Esb)
    (h : in_block ms j seen s since) :
    in_block ms j true (run_event_loop s r).1
      (if Action.hal_wdog_restart ∈ (run_event_loop s r).2 then 0 else since) := by
  obtain ⟨hj, hc, he, h0, _⟩ := h
  rw [run_event_loop_state]
  refine ⟨hj, hc, he, ?_, ?_⟩
  · intro _
    by_cases hf : s.g_is_need_to_feed_the_watchdog = 0
    · have hno : ¬ Action.hal_wdog_restart ∈ (run_event_loop s r).2 := by
        rw [restart_mem_log_iff]; simpa using hf
      rw [if_neg hno]
      exact h0 hf
    · have hyes : Action.hal_wdog_restart ∈ (run_event_loop s r).2 := by
        rw [restart_mem_log_iff]; exact hf
      rw [if_pos hyes]
      exact ⟨fun _ => Nat.zero_le _, fun _ => Nat.zero_le _⟩
  · intro hf
    exact absurd rfl hf

theorem wdog_alive_block (timeout : Nat) (ht : 5010 ≤ timeout) (ms : Nat)
    (hms : ms + 1 < 2 ^ 32) (rest : List Event)
    (hrest : ∀ s since, at_boundary (ms + 1) s since → wdog_alive timeout s since rest = true) :
    ∀ (evs : List Event) (j : Nat) (seen : Bool) (s : State) (since : Nat),
      in_block ms j seen s since → count_ticks evs + j = 10 →
      (seen = true ∨ ∃ r, Event.pass r ∈ evs) →
      wdog_alive timeout s since (evs ++ rest) = true := by
  intro evs
  induction evs with
  | nil =>
    intro j seen s since h hcount hseen
    simp only [count_ticks, Nat.zero_add] at hcount
    have hs : seen = true := by
      rcases hseen with h | ⟨r, hr⟩
      · exact h
      · simp at hr
    subst hcount
    simp only [List.nil_append]
    apply hrest
    obtain ⟨_, hc, he, h0, h1⟩ := h
    refine ⟨by simpa using hc, by simpa using he, fun hf => (h0 hf).2 rfl, ?_⟩
    intro hf
    rcases (h1 hf).2 rfl with h | h
    · exact h
    · rw [hs] at h; exact absurd h.2.1 (by simp)
  | cons e es ih =>
    intro j seen s since h hcount hseen
    have hb := in_block_bound ms j seen s since h
    cases e with
    | tick =>
      simp only [count_ticks] at hcount
      simp only [List.cons_append, wdog_alive, Bool.and_eq_true, decide_eq_true_eq]
      refine ⟨by omega, ?_⟩
      apply ih (j + 1) seen _ _ (in_block_tick ms j seen s since hms (by omega) h) (by omega)
      rcases hseen with h | ⟨r, hr⟩
      · exact Or.inl h
      · right
        refine ⟨r, ?_⟩
        simpa using hr
    | pass r =>
      simp only [count_ticks] at hcount
      simp only [List.cons_append, wdog_alive, Bool.and_eq_true, decide_eq_true_eq]
      refine ⟨by omega, ?_⟩
      exact ih j true _ _ (in_block_pass ms j seen s since r h) hcount (Or.inl rfl)

theorem wdog_alive_nominal (timeout : Nat) (ht : 5010 ≤ timeout) :
    ∀ (blocks : List (List Event)) (ms : Nat) (s : State) (since : Nat),
      nominal blocks → ms + blocks.length < 2 ^ 32 → at_boundary ms s since →
      wdog_alive timeout s since blocks.flatten = true := by
  intro blocks
  induction blocks with
  | nil =>
    intro ms s since _ _ h
    obtain ⟨_, _, h0, h1⟩ := h
    simp only [List.flatten, wdog_alive, decide_eq_true_eq]
    by_cases hf : s.g_is_need_to_feed_the_watchdog = 0
    · have := h0 hf; omega
    · have := h1 hf; omega
  | cons b bs ih =>
    intro ms s since hnom hlen h
    simp only [List.length_cons] at hlen
    have hb := hnom b (List.mem_cons_self _ _)
    rw [List.flatten_cons]
    apply wdog_alive_block timeout ht ms (by omega) bs.flatten
      (fun s' since' h' =>
        ih (ms + 1) s' since' (fun x hx => hnom x (List.mem_cons_of_mem _ hx)) (by omega) h')
      b 0 false s since ?_ (by simpa using hb.1) (Or.inr hb.2)
    obtain ⟨hc, he, h0, h1⟩ := h
    refine ⟨by omega, by simpa using hc, by simpa using he, ?_, ?_⟩
    · intro hf
      exact ⟨fun _ => by have := h0 hf; omega, fun h10 => by omega⟩
    · intro hf
      obtain ⟨hm, hd⟩ := h1 hf
      exact ⟨fun _ => ⟨hm, rfl, by omega⟩, fun h10 => by omega⟩

theorem gaps_of_wdog_alive (timeout : Nat) :
    ∀ (evs : List Event) (s : State) (now last : Nat), last ≤ now →
      wdog_alive timeout s (now - last) evs = true →
      gaps_within timeout last (restart_times s now evs) (now + count_ticks evs) := by
  intro evs
  induction evs with
  | nil =>
    intro s now last hle h
    simp only [wdog_alive, decide_eq_true_eq] at h
    simp only [restart_times, gaps_within, count_ticks]
    omega
  | cons e es ih =>
    intro s now last hle h
    cases e with
    | tick =>
      simp only [wdog_alive, Bool.and_eq_true, decide_eq_true_eq] at h
      simp only [restart_times, count_ticks]
      have h2 : wdog_alive timeout (timer0_irq s) (now + 1 - last) es = true := by
        have : now + 1 - last = now - last + 1 := by omega
        rw [this]; exact h.2
      have := ih (timer0_irq s) (now + 1) last (by omega) h2
      have heq : now + (count_ticks es + 1) = now + 1 + count_ticks es := by omega
      rw [heq]; exact this
    | pass r =>
      simp only [wdog_alive, Bool.and_eq_true, decide_eq_true_eq] at h
      simp only [restart_times, count_ticks]
      by_cases hr : Action.hal_wdog_restart ∈ (run_event_loop s r).2
      · rw [if_pos hr] at h ⊢
        simp only [List.singleton_append, gaps_within]
        refine ⟨by omega, ?_⟩
        apply ih _ now now (le_refl _)
        rw [Nat.sub_self]; exact h.2
      · rw [if_neg hr] at h ⊢
        simp only [List.nil_append]
        exact ih _ now last hle h.2

theorem count_ticks_join (blocks : List (List Event))
    (h : ∀ b ∈ blocks, count_ticks b = 10) : count_ticks blocks.flatten = 10 * blocks.length := by
  have happ : ∀ a b : List Event, count_ticks (a ++ b) = count_ticks a + count_ticks b := by
    intro a b
    induction a with
    | nil => simp [count_ticks]
    | cons e es ih => cases e <;> simp [count_ticks, ih]; omega
  induction blocks with
  | nil => rfl
  | cons b bs ih =>
    rw [List.flatten_cons, happ, List.length_cons]
    rw [h b (List.mem_cons_self _ _), ih (fun x hx => h x (List.mem_cons_of_mem _ hx))]
    omega

/-- C9: in a run of 10,000 ms from boot (100,000 firings of timer0_irq)
in which every millisecond holds its 10 firings and at least one complete
pass of run_event_loop, whatever the ESB module answers, the restart times of
hal_wdog_restart leave no gap of more than 1500 ms (15,000 firings): the
first restart is at most 1500 ms after boot, two consecutive restarts are at
most 1500 ms apart, the last one is at most 1500 ms before the end, and a
watchdog of timeout 1500 ms watching the run sees no missed deadline. -/
theorem wdog_restart_every_1500_ms (blocks : List (List Event))
    (hlen : blocks.length = 10000) (hnom : nominal blocks) :
    count_ticks blocks.flatten = 100000 ∧
    gaps_within 15000 0 (restart_times boot 0 blocks.flatten) 100000 ∧
    restart_times boot 0 blocks.flatten ≠ [] ∧
    wdog_alive 15000 boot 0 blocks.flatten = true := by
  have hcount : count_ticks blocks.flatten = 100000 := by
    rw [count_ticks_join blocks (fun b hb => (hnom b hb).1), hlen]
  have halive : wdog_alive 15000 boot 0 blocks.flatten = true :=
    wdog_alive_nominal 15000 (by norm_num) blocks 0 boot 0 hnom
      (by rw [hlen]; norm_num)
      ⟨rfl, rfl, fun _ => Nat.zero_le _, fun h => absurd rfl h⟩
  have hgaps := gaps_of_wdog_alive 15000 blocks.flatten boot 0 0 (le_refl _) halive
  rw [hcount] at hgaps
  refine ⟨hcount, hgaps, ?_, halive⟩
  intro hnil
  rw [hnil] at hgaps
  simp only [gaps_within] at hgaps
  omega

/-- Witness of C9: the run of 10,000 milliseconds in which every
millisecond is 10 firings followed by one pass with no packet pending. -/
theorem wdog_restart_every_1500_ms_witness :
    (idle_run 10000).length = 10000 ∧ nominal (idle_run 10000) ∧
    gaps_within 15000 0 (restart_times boot 0 (idle_run 10000).flatten) 100000 ∧
    wdog_alive 15000 boot 0 (idle_run 10000).flatten = true :=
  have hlen : (idle_run 10000).length = 10000 := by
    rw [idle_run]; exact List.length_replicate _ _
  have hnom : nominal (idle_run 10000) := fun b hb => by
    rw [idle_run] at hb
    rw [List.eq_of_mem_replicate hb]
    exact ⟨rfl, esb_idle, by simp [idle_millisecond]⟩
  ⟨hlen, hnom, (wdog_restart_every_1500_ms (idle_run 10000) hlen hnom).2.1,
    (wdog_restart_every_1500_ms (idle_run 10000) hlen hnom).2.2.2⟩

/-! ## The frame of a pass -/

/-- C12: for every state and every answer of the ESB module, one pass of
run_event_loop leaves the tick accumulator and elapsed_ms unchanged and
leaves both flags clear, so it never sets a flag; the heartbeat step changes
PrintHeartbeat only together with the heartbeat printf and does not touch
FeedWatchdog, the packet step changes no variable, and the watchdog step
changes FeedWatchdog only together with the call of hal_wdog_restart and does
not touch PrintHeartbeat. -/
theorem run_event_loop_frame (s : State) (r : Esb) :
    (run_event_loop s r).1.timer0_overflow_counter = s.timer0_overflow_counter ∧
    (run_event_loop s r).1.g_elaspsed_time_in_ms = s.g_elaspsed_time_in_ms ∧
    (run_event_loop s r).1.g_is_need_to_feed_the_watchdog = 0 ∧
    (run_event_loop s r).1.g_is_need_to_print_time = 0 ∧
    (∀ m : State × List Action,
      ((step_print_time m).1.g_is_need_to_print_time ≠ m.1.g_is_need_to_print_time →
        (step_print_time m).1.g_is_need_to_print_time = 0 ∧
        (step_print_time m).2 = m.2 ++ [Action.printf
          (" " ++ fmt_lu (m.1.g_elaspsed_time_in_ms / 1000) ++ " sec\r\n")]) ∧
      (step_print_time m).1.g_is_need_to_feed_the_watchdog
        = m.1.g_is_need_to_feed_the_watchdog) ∧
    (∀ m : State × List Action, (step_esb r m).1 = m.1) ∧
    (∀ m : State × List Action,
      ((step_feed_dog m).1.g_is_need_to_feed_the_watchdog
          ≠ m.1.g_is_need_to_feed_the_watchdog →
        (step_feed_dog m).1.g_is_need_to_feed_the_watchdog = 0 ∧
        (step_feed_dog m).2 = m.2 ++ [Action.hal_wdog_restart]) ∧
      (step_feed_dog m).1.g_is_need_to_print_time = m.1.g_is_need_to_print_time) ∧
    (s.g_is_need_to_print_time ≠ 0 →
      Action.printf (" " ++ fmt_lu (s.g_elaspsed_time_in_ms / 1000) ++ " sec\r\n")
        ∈ (run_event_loop s r).2) ∧
    (s.g_is_need_to_feed_the_watchdog ≠ 0 →
      Action.hal_wdog_restart ∈ (run_event_loop s r).2) := by
  refine ⟨by rw [run_event_loop_state], by rw [run_event_loop_state],
    by rw [run_event_loop_state], by rw [run_event_loop_state], ?_, ?_, ?_, ?_, ?_⟩
  · intro m
    by_cases h : m.1.g_is_need_to_print_time = 0
    · simp [step_print_time, h]
    · simp [step_print_time, h, get_elasped_time_in_ms]
  · intro m
    by_cases h : r.ready = 0 <;> simp [step_esb, h]
  · intro m
    by_cases h : m.1.g_is_need_to_feed_the_watchdog = 0
    · simp [step_feed_dog, h]
    · simp [step_feed_dog, h]
  · intro h
    rw [run_event_loop_log, if_pos h]
    simp
  · intro h
    exact (restart_mem_log_iff s r).2 h

/-- Witness of C12: in the state with elapsed_ms = 1000 and both flags set,
each step that clears a flag makes the matching call, and the pass with no
packet pending makes both calls. -/
theorem run_event_loop_frame_witness :
    ((step_print_time
        ({ timer0_overflow_counter := 0, g_elaspsed_time_in_ms := 1000,
           g_is_need_to_feed_the_watchdog := 1, g_is_need_to_print_time := 1 }, [])).2
      = [Action.printf " 1 sec\r\n"]) ∧
    ((step_feed_dog
        ({ timer0_overflow_counter := 0, g_elaspsed_time_in_ms := 1000,
           g_is_need_to_feed_the_watchdog := 1, g_is_need_to_print_time := 1 }, [])).2
      = [Action.hal_wdog_restart]) ∧
    Action.hal_wdog_restart ∈ (run_event_loop
        { timer0_overflow_counter := 0, g_elaspsed_time_in_ms := 1000,
          g_is_need_to_feed_the_watchdog := 1, g_is_need_to_print_time := 1 } esb_idle).2 :=
  ⟨((((run_event_loop_frame
        { timer0_overflow_counter := 0, g_elaspsed_time_in_ms := 1000,
          g_is_need_to_feed_the_watchdog := 1, g_is_need_to_print_time := 1 }
        esb_idle).2.2.2.2.1
      ({ timer0_overflow_counter := 0, g_elaspsed_time_in_ms := 1000,
         g_is_need_to_feed_the_watchdog := 1, g_is_need_to_print_time := 1 }, [])).1
      (by decide)).2).trans (by decide),
    ((((run_event_loop_frame
        { timer0_overflow_counter := 0, g_elaspsed_time_in_ms := 1000,
          g_is_need_to_feed_the_watchdog := 1, g_is_need_to_print_time := 1 }
        esb_idle).2.2.2.2.2.2.1
      ({ timer0_overflow_counter := 0, g_elaspsed_time_in_ms := 1000,
         g_is_need_to_feed_the_watchdog := 1, g_is_need_to_print_time := 1 }, [])).1
      (by decide)).2).trans (by decide),
    (run_event_loop_frame
        { timer0_overflow_counter := 0, g_elaspsed_time_in_ms := 1000,
          g_is_need_to_feed_the_watchdog := 1, g_is_need_to_print_time := 1 }
        esb_idle).2.2.2.2.2.2.2.2 (by decide)⟩

/-! ## The low-power timeout and the tick period -/

/-- C14, the claim as stated fails for a dormancy period of 512 seconds:
the macro selects 513 seconds, but the start value 513 * 32768 / 256 = 65664
does not fit the 16-bit start value of hal_wdog_init and arrives as 128, which
denotes 1 second; the configured 1000 ms do not exceed 512 * 1000 ms + 500 ms.
At 511 seconds the start value 65536 arrives as 0. -/
theorem wdog_timeout_wraps_at_512 :
    WDOG_TIMEOUT_IN_SEC_power_saving 512 = 513 ∧
    WDOG_TIMEOUT_IN_SEC_power_saving 512 * 32768 / 256 = 65664 ∧
    hal_wdog_init_arg_power_saving 512 = some 128 ∧
    wdog_timeout_in_ms_power_saving 512 = some 1000 ∧
    ¬ (1000 > 512 * 1000 + FEED_DOG_INTERVAL_IN_MS) ∧
    hal_wdog_init_arg_power_saving 511 = some 0 := by
  have hw : WDOG_TIMEOUT_IN_SEC = 1 := by decide
  have h512 : WDOG_TIMEOUT_IN_SEC_power_saving 512 = 513 := by
    rw [WDOG_TIMEOUT_IN_SEC_power_saving, hw]; rfl
  have h511 : WDOG_TIMEOUT_IN_SEC_power_saving 511 = 512 := by
    rw [WDOG_TIMEOUT_IN_SEC_power_saving, hw]; rfl
  have harg : hal_wdog_init_arg_power_saving 512 = some 128 := by
    rw [hal_wdog_init_arg_power_saving, h512, if_pos (by norm_num)]
    norm_num
  refine ⟨h512, by rw [h512], harg, ?_, by decide, ?_⟩
  · rw [wdog_timeout_in_ms_power_saving, harg, Option.map_some', wdog_timeout_in_sec]
  · rw [hal_wdog_init_arg_power_saving, h511, if_pos (by norm_num)]
    norm_num

/-- C14, amended: with the low-power mode enabled, for every dormancy period
of p <= 510 seconds (the periods for which the start value fits the 16 bits
of hal_wdog_init), the timeout selected in main is 3 * 500 / 1000 = 1 second,
replaced by p + 1 seconds when 1 <= p; the start value passed to hal_wdog_init
is 128 times that timeout, below 2^16, and denotes exactly that timeout; and
the configured timeout exceeds the dormancy period plus one FeedInterval:
timeout * 1000 ms > p * 1000 ms + 500 ms. -/
theorem wdog_timeout_exceeds_dormancy (p : Nat) (hp : p ≤ 510) :
    WDOG_TIMEOUT_IN_SEC_power_saving p = (if 1 ≤ p then p + 1 else 1) ∧
    hal_wdog_init_arg_power_saving p = some (128 * WDOG_TIMEOUT_IN_SEC_power_saving p) ∧
    128 * WDOG_TIMEOUT_IN_SEC_power_saving p < 2 ^ 16 ∧
    wdog_timeout_in_ms_power_saving p = some (WDOG_TIMEOUT_IN_SEC_power_saving p * 1000) ∧
    WDOG_TIMEOUT_IN_SEC_power_saving p * 1000 > p * 1000 + FEED_DOG_INTERVAL_IN_MS := by
  have hw : WDOG_TIMEOUT_IN_SEC = 1 := by decide
  have hf : FEED_DOG_INTERVAL_IN_MS = 500 := rfl
  have ht : WDOG_TIMEOUT_IN_SEC_power_saving p = (if 1 ≤ p then p + 1 else 1) := by
    rw [WDOG_TIMEOUT_IN_SEC_power_saving, hw]
  have hle : WDOG_TIMEOUT_IN_SEC_power_saving p ≤ 511 := by
    rw [ht]; split_ifs <;> omega
  have hgt : p < WDOG_TIMEOUT_IN_SEC_power_saving p := by
    rw [ht]; split_ifs <;> omega
  have harg : hal_wdog_init_arg_power_saving p
      = some (128 * WDOG_TIMEOUT_IN_SEC_power_saving p) := by
    have h31 : WDOG_TIMEOUT_IN_SEC_power_saving p * 32768 < 2 ^ 31 := by omega
    have hq : WDOG_TIMEOUT_IN_SEC_power_saving p * 32768 / 256 % 2 ^ 16
        = 128 * WDOG_TIMEOUT_IN_SEC_power_saving p := by omega
    rw [hal_wdog_init_arg_power_saving, if_pos h31, hq]
  refine ⟨ht, harg, by omega, ?_, by rw [hf]; omega⟩
  have hden : 128 * WDOG_TIMEOUT_IN_SEC_power_saving p * 256 / 32768
      = WDOG_TIMEOUT_IN_SEC_power_saving p := by omega
  rw [wdog_timeout_in_ms_power_saving, harg, Option.map_some', wdog_timeout_in_sec, hden]

/-- Witness of C14: a dormancy period of 5 seconds gives a timeout of 6
seconds, the start value 768, and 6000 ms > 5500 ms. -/
theorem wdog_timeout_exceeds_dormancy_witness :
    (5 ≤ 510) ∧
    hal_wdog_init_arg_power_saving 5 = some (128 * WDOG_TIMEOUT_IN_SEC_power_saving 5) ∧
    wdog_timeout_in_ms_power_saving 5 = some (WDOG_TIMEOUT_IN_SEC_power_saving 5 * 1000) ∧
    WDOG_TIMEOUT_IN_SEC_power_saving 5 * 1000 > 5 * 1000 + FEED_DOG_INTERVAL_IN_MS :=
  ⟨by decide, (wdog_timeout_exceeds_dormancy 5 (by decide)).2.1,
    (wdog_timeout_exceeds_dormancy 5 (by decide)).2.2.2.1,
    (wdog_timeout_exceeds_dormancy 5 (by decide)).2.2.2.2⟩

/-- C15, the claim as stated fails: the reload count of timer0_init is
16000000 / 12 / 1000 * 100 / 1000 = 133 machine cycles per tick, so the 10
ticks after which timer0_irq increments elapsed_ms last 10 * 133 * 12 = 15960
oscillator clocks, not the 16000 clocks of one millisecond. -/
theorem ten_ticks_are_not_one_ms :
    ticks_per_ms = 10 ∧ timer0_init_counter = 133 ∧
    ticks_per_ms * timer0_init_counter * CLOCK_NUMBER_PER_MACHINE_CYCLE = 15960 ∧
    MCU_CRYSTAL_FREQUENCY_IN_HZ / 1000 = 16000 ∧
    ticks_per_ms * timer0_init_counter * CLOCK_NUMBER_PER_MACHINE_CYCLE * 1000
      ≠ MCU_CRYSTAL_FREQUENCY_IN_HZ := by
  decide

/-- C15, amended: timer0_irq increments elapsed_ms every 10 ticks; with a
16 MHz oscillator and 12 clocks per machine cycle the reload count computed
in integer arithmetic is 133 machine cycles per tick, which fits in 8 bits
(TH0 = 0x100 - 133 = 123); 10 ticks last 15960 clocks = 997500 ns, 40 clocks
(2.5 microseconds, a quarter of a percent) short of one millisecond, and 10
is the number of whole ticks that fit in one millisecond (11 ticks exceed
it). -/
theorem ten_ticks_approximate_one_ms :
    ticks_per_ms = 10 ∧
    timer0_init_counter = 133 ∧
    MCU_CRYSTAL_FREQUENCY_IN_HZ / CLOCK_NUMBER_PER_MACHINE_CYCLE / 1000
      * MINI_TIME_SCALE_IN_US / 1000 < 256 ∧
    timer0_init_TH0 = 123 ∧
    ticks_per_ms * timer0_init_counter * CLOCK_NUMBER_PER_MACHINE_CYCLE = 15960 ∧
    15960 * 1000000000 / MCU_CRYSTAL_FREQUENCY_IN_HZ = 997500 ∧
    MCU_CRYSTAL_FREQUENCY_IN_HZ / 1000
      - ticks_per_ms * timer0_init_counter * CLOCK_NUMBER_PER_MACHINE_CYCLE = 40 ∧
    ticks_per_ms * timer0_init_counter * CLOCK_NUMBER_PER_MACHINE_CYCLE
      ≤ MCU_CRYSTAL_FREQUENCY_IN_HZ / 1000 ∧
    MCU_CRYSTAL_FREQUENCY_IN_HZ / 1000
      < (ticks_per_ms + 1) * timer0_init_counter * CLOCK_NUMBER_PER_MACHINE_CYCLE := by
  decide

/-! ## The trace loop: termination and bounds -/

theorem trace_loop_exit_eq (len : Nat) (hlen : len < 256) :
    ∀ fuel i, i ≤ len → len - i < fuel → trace_loop_exit len fuel i = some len := by
  intro fuel
  induction fuel with
  | zero => intro i _ h; omega
  | succ fuel ih =>
    intro i hi hf
    by_cases hlt : i < len
    · have hmod : (i + 1) % 256 = i + 1 := Nat.mod_eq_of_lt (by omega)
      rw [trace_loop_exit, if_pos hlt, hmod]
      exact ih (i + 1) (by omega) (by omega)
    · have : i = len := by omega
      rw [trace_loop_exit, if_neg hlt, this]

/-- C18: for every length len that fits in 8 bits, the trace loop of
run_event_loop leaves through its test with the counter equal to len as soon
as it is given more than len loop tests, after exactly len iterations that
read the indices 0, 1, ..., len - 1 in this order; at every index read the
increment of the 8-bit counter does not wrap; and when len <=
ESB_MAX_PAYLOAD_LEN every index read is below ESB_MAX_PAYLOAD_LEN, the size of
the receive buffer. -/
theorem trace_loop_terminates_in_bounds (ESB_MAX_PAYLOAD_LEN len : Nat) (hlen : len < 256) :
    (∀ fuel, len < fuel →
      trace_loop_exit len fuel 0 = some len ∧ trace_loop len fuel 0 = List.range len) ∧
    (trace_loop len 256 0).length = len ∧
    (∀ i ∈ trace_loop len 256 0, i + 1 < 256 ∧ (i + 1) % 256 = i + 1) ∧
    (len ≤ ESB_MAX_PAYLOAD_LEN →
      ∀ i ∈ trace_loop len 256 0, i < ESB_MAX_PAYLOAD_LEN) := by
  have h256 : trace_loop len 256 0 = List.range len := trace_loop_eq_range len hlen
  refine ⟨?_, ?_, ?_, ?_⟩
  · intro fuel hf
    refine ⟨trace_loop_exit_eq len hlen fuel 0 (Nat.zero_le _) (by omega), ?_⟩
    rw [trace_loop_eq_range' len hlen fuel 0 (Nat.zero_le _) (by omega),
      List.range_eq_range']
    rfl
  · rw [h256, List.length_range]
  · intro i hi
    rw [h256, List.mem_range] at hi
    exact ⟨by omega, Nat.mod_eq_of_lt (by omega)⟩
  · intro hmax i hi
    rw [h256, List.mem_range] at hi
    omega

/-- Witness of C18: a length of 2 with a receive buffer of 32 bytes: the
loop exits with the counter at 2 and reads the indices 0 and 1. -/
theorem trace_loop_terminates_in_bounds_witness :
    (2 < 256 ∧ 2 ≤ 32) ∧
    trace_loop_exit 2 256 0 = some 2 ∧ trace_loop 2 256 0 = [0, 1] ∧
    (∀ i ∈ trace_loop 2 256 0, i < 32) :=
  ⟨⟨by decide, by decide⟩,
    ((trace_loop_terminates_in_bounds 32 2 (by decide)).1 256 (by decide)).1,
    (((trace_loop_terminates_in_bounds 32 2 (by decide)).1 256 (by decide)).2).trans
      (by decide),
    (trace_loop_terminates_in_bounds 32 2 (by decide)).2.2.2 (by decide)⟩

/-! ## Coalescing of boundary crossings -/

theorem reaches_multiple_iff (k : Nat) (s : State) :
    reaches_multiple k s ↔
      10 ≤ (s.timer0_overflow_counter + 1) % 256 ∧
        (s.g_elaspsed_time_in_ms + 1) % 2 ^ 32 % k = 0 := by
  have hne : (s.g_elaspsed_time_in_ms + 1) % 2 ^ 32 ≠ s.g_elaspsed_time_in_ms := by
    omega
  unfold reaches_multiple
  by_cases h : 10 ≤ (s.timer0_overflow_counter + 1) % 256
  · rw [timer0_irq_roll _ h]
    dsimp only
    exact ⟨fun hh => ⟨h, hh.2⟩, fun hh => ⟨hne, hh.2⟩⟩
  · rw [timer0_irq_keep _ h]
    dsimp only
    exact ⟨fun hh => absurd rfl hh.1, fun hh => absurd hh.1 h⟩

theorem reaches_multiple_boot_iff (k n : Nat) :
    reaches_multiple k (ticks n boot) ↔
      n % 10 = 9 ∧ (n / 10 % 2 ^ 32 + 1) % 2 ^ 32 % k = 0 := by
  obtain ⟨hc, he⟩ := ticks_boot_fields n
  rw [reaches_multiple_iff, hc, he]
  constructor
  · intro h; exact ⟨by omega, h.2⟩
  · intro h; exact ⟨by omega, h.2⟩

theorem ticks_flag_stays (f : Flag) (s : State) (h : f.value s ≠ 0) :
    ∀ n, f.value (ticks n s) ≠ 0 := by
  intro n
  induction n with
  | zero => exact h
  | succ n ih => exact (timer0_irq_flag_iff f _).2 (Or.inl ih)

theorem crossings_set_flag (f : Flag) (s : State) :
    ∀ n, 1 ≤ crossings f.interval n s → f.value (ticks n s) ≠ 0 := by
  intro n
  induction n with
  | zero => intro h; simp [crossings] at h
  | succ n ih =>
    intro h
    by_cases hr : reaches_multiple f.interval (ticks n s)
    · exact (timer0_irq_flag_iff f _).2 (Or.inr hr)
    · simp only [crossings, if_neg hr, Nat.add_zero] at h
      exact (timer0_irq_flag_iff f _).2 (Or.inl (ih h))

theorem restart_not_mem_packet_trace (r : Esb) :
    Action.hal_wdog_restart ∉ packet_trace r := by
  simp [packet_trace]

theorem serviced_pass (f : Flag) (s : State) (r : Esb) :
    serviced f (run_event_loop s r).2 = (if f.value s ≠ 0 then 1 else 0) := by
  have h0 : List.count Action.hal_wdog_restart (packet_trace r) = 0 :=
    List.count_eq_zero_of_not_mem (restart_not_mem_packet_trace r)
  rw [run_event_loop_log]
  cases f
  · simp only [serviced, Flag.value]
    by_cases hp : s.g_is_need_to_print_time = 0 <;> by_cases hr : r.ready = 0 <;>
      by_cases hf : s.g_is_need_to_feed_the_watchdog = 0 <;>
      simp [hp, hr, hf, esb_body, List.count_cons, List.count_append, h0]
  · simp only [serviced, Flag.value]
    by_cases hp : s.g_is_need_to_print_time = 0 <;> simp [hp, heartbeat_calls]

theorem crossings_feed_boot (n : Nat) (hn : n < 42949672950) :
    crossings 500 n boot = n / 5000 := by
  induction n with
  | zero => rfl
  | succ n ih =>
    have hlt : n / 10 % 2 ^ 32 = n / 10 := Nat.mod_eq_of_lt (by omega)
    have hlt' : (n / 10 + 1) % 2 ^ 32 = n / 10 + 1 := Nat.mod_eq_of_lt (by omega)
    rw [crossings, ih (by omega)]
    by_cases hr : reaches_multiple 500 (ticks n boot)
    · rw [if_pos hr]
      rw [reaches_multiple_boot_iff, hlt, hlt'] at hr
      omega
    · rw [if_neg hr]
      rw [reaches_multiple_boot_iff, hlt, hlt'] at hr
      omega

/-- C11: for every k >= 1 and each flag with its interval, if a run of
firings of timer0_irq with no dispatcher pass in it changes elapsed_ms to a
multiple of the interval k times, then the flag is set, the next pass of
run_event_loop services it exactly once (one call of hal_wdog_restart for
FeedWatchdog, one heartbeat line for PrintHeartbeat) and leaves it clear, and
a further pass with no firing in between services it zero times. -/
theorem crossings_coalesce (f : Flag) (s : State) (n k : Nat) (r1 r2 : Esb)
    (hk : 1 ≤ k) (hcross : crossings f.interval n s = k) :
    f.value (ticks n s) ≠ 0 ∧
    serviced f (run_event_loop (ticks n s) r1).2 = 1 ∧
    f.value (run_event_loop (ticks n s) r1).1 = 0 ∧
    serviced f (run_event_loop (run_event_loop (ticks n s) r1).1 r2).2 = 0 := by
  have hset : f.value (ticks n s) ≠ 0 := crossings_set_flag f s n (by omega)
  have hclr : f.value (run_event_loop (ticks n s) r1).1 = 0 := pass_clears_flag f _ r1
  refine ⟨hset, ?_, hclr, ?_⟩
  · rw [serviced_pass, if_pos hset]
  · rw [serviced_pass, if_neg (by simpa using hclr)]

/-- Witness of C11: 10000 firings from boot cross two multiples of 500
(at 500 and at 1000 ms); the next pass calls hal_wdog_restart once and a
second pass does not call it. -/
theorem crossings_coalesce_witness :
    (1 ≤ 2 ∧ crossings Flag.FeedWatchdog.interval 10000 boot = 2) ∧
    serviced Flag.FeedWatchdog (run_event_loop (ticks 10000 boot) esb_idle).2 = 1 ∧
    serviced Flag.FeedWatchdog
      (run_event_loop (run_event_loop (ticks 10000 boot) esb_idle).1 esb_idle).2 = 0 :=
  have hcross : crossings Flag.FeedWatchdog.interval 10000 boot = 2 :=
    crossings_feed_boot 10000 (by norm_num)
  ⟨⟨by decide, hcross⟩,
    (crossings_coalesce Flag.FeedWatchdog boot 10000 2 esb_idle esb_idle
      (by decide) hcross).2.1,
    (crossings_coalesce Flag.FeedWatchdog boot 10000 2 esb_idle esb_idle
      (by decide) hcross).2.2.2⟩

/-! ## The heartbeat value when the service is late -/

theorem ticks_fields (s : State) (hc : s.timer0_overflow_counter < 10)
    (he : s.g_elaspsed_time_in_ms < 2 ^ 32) (n : Nat) :
    (ticks n s).timer0_overflow_counter = (s.timer0_overflow_counter + n) % 10 ∧
    (ticks n s).g_elaspsed_time_in_ms
      = (s.g_elaspsed_time_in_ms + (s.timer0_overflow_counter + n) / 10) % 2 ^ 32 := by
  induction n with
  | zero =>
    simp only [ticks, Nat.add_zero]
    constructor
    · omega
    · have : s.timer0_overflow_counter / 10 = 0 := by omega
      rw [this, Nat.add_zero, Nat.mod_eq_of_lt he]
  | succ n ih =>
    obtain ⟨hcn, hen⟩ := ih
    simp only [ticks]
    by_cases h : 10 ≤ ((ticks n s).timer0_overflow_counter + 1) % 256
    · rw [timer0_irq_roll _ h]
      simp only [hen]
      rw [hcn] at h
      omega
    · rw [timer0_irq_keep _ h]
      simp only [hen, hcn]
      rw [hcn] at h
      omega

theorem ticks_print_stays (s : State) (h : s.g_is_need_to_print_time ≠ 0) (n : Nat) :
    (ticks n s).g_is_need_to_print_time ≠ 0 :=
  ticks_flag_stays Flag.PrintHeartbeat s h n

theorem heartbeat_head (s : State) (r : Esb)
    (hflag : s.g_is_need_to_print_time ≠ 0) (hms : s.g_elaspsed_time_in_ms < 2 ^ 32) :
    ∃ rest, (run_event_loop s r).2 =
      Action.printf (" " ++ toString (s.g_elaspsed_time_in_ms / 1000) ++ " sec\r\n")
        :: rest := by
  have hlt : s.g_elaspsed_time_in_ms / 1000 < 2 ^ 32 :=
    lt_of_le_of_lt (Nat.div_le_self _ _) hms
  rw [run_event_loop_log, if_pos hflag, fmt_lu, Nat.mod_eq_of_lt hlt]
  exact ⟨_, rfl⟩

theorem after_boundary_firing (s0 : State) (h : reaches_multiple 1000 s0) :
    (timer0_irq s0).timer0_overflow_counter = 0 ∧
    (timer0_irq s0).g_elaspsed_time_in_ms < 2 ^ 32 ∧
    (timer0_irq s0).g_is_need_to_print_time ≠ 0 := by
  have hroll := ((reaches_multiple_iff 1000 s0).1 h).1
  have hprint := (timer0_irq_print_iff s0).2 (Or.inr h)
  refine ⟨?_, ?_, hprint⟩
  · rw [timer0_irq_roll _ hroll]
  · rw [timer0_irq_roll _ hroll]
    exact Nat.mod_lt _ (by norm_num)

/-- C17, the claim as stated fails for k = 4294967 and d = 296: the flag is
set at elapsed_ms = 4294967000 (and 1000 * k < 2^32), elapsed_ms wraps to 0
during the 296 further milliseconds, and the pass then prints the value 0,
not floor((1000 * k + d) / 1000) = 4294967 = k, although d < 1000. -/
theorem heartbeat_after_wrap_fails :
    1000 * 4294967 < 2 ^ 32 ∧ 296 < 1000 ∧
    reaches_multiple 1000
      { timer0_overflow_counter := 9, g_elaspsed_time_in_ms := 4294966999,
        g_is_need_to_feed_the_watchdog := 0, g_is_need_to_print_time := 0 } ∧
    (timer0_irq
      { timer0_overflow_counter := 9, g_elaspsed_time_in_ms := 4294966999,
        g_is_need_to_feed_the_watchdog := 0,
        g_is_need_to_print_time := 0 }).g_elaspsed_time_in_ms = 1000 * 4294967 ∧
    (∃ rest, (run_event_loop
        (ticks (10 * 296) (timer0_irq
          { timer0_overflow_counter := 9, g_elaspsed_time_in_ms := 4294966999,
            g_is_need_to_feed_the_watchdog := 0, g_is_need_to_print_time := 0 }))
        esb_idle).2 = Action.printf " 0 sec\r\n" :: rest) ∧
    (1000 * 4294967 + 296) / 1000 = 4294967 ∧
    " 0 sec\r\n" ≠ " " ++ toString ((1000 * 4294967 + 296) / 1000) ++ " sec\r\n" := by
  have hreach : reaches_multiple 1000
      { timer0_overflow_counter := 9, g_elaspsed_time_in_ms := 4294966999,
        g_is_need_to_feed_the_watchdog := 0, g_is_need_to_print_time := 0 } := by
    decide
  have hstate : timer0_irq
      { timer0_overflow_counter := 9, g_elaspsed_time_in_ms := 4294966999,
        g_is_need_to_feed_the_watchdog := 0, g_is_need_to_print_time := 0 }
      = { timer0_overflow_counter := 0, g_elaspsed_time_in_ms := 4294967000,
          g_is_need_to_feed_the_watchdog := 1, g_is_need_to_print_time := 1 } := by
    decide
  refine ⟨by norm_num, by norm_num, hreach, by rw [hstate], ?_, by norm_num, by decide⟩
  rw [hstate]
  have hf := ticks_fields
    { timer0_overflow_counter := 0, g_elaspsed_time_in_ms := 4294967000,
      g_is_need_to_feed_the_watchdog := 1, g_is_need_to_print_time := 1 }
    (by decide) (by decide) (10 * 296)
  have he : (ticks (10 * 296)
      { timer0_overflow_counter := 0, g_elaspsed_time_in_ms := 4294967000,
        g_is_need_to_feed_the_watchdog := 1,
        g_is_need_to_print_time := 1 }).g_elaspsed_time_in_ms = 0 := by
    rw [hf.2]
    norm_num
  have hp := ticks_print_stays
    { timer0_overflow_counter := 0, g_elaspsed_time_in_ms := 4294967000,
      g_is_need_to_feed_the_watchdog := 1, g_is_need_to_print_time := 1 }
    (by decide) (10 * 296)
  obtain ⟨rest, hrest⟩ := heartbeat_head _ esb_idle hp (by rw [he]; norm_num)
  refine ⟨rest, ?_⟩
  rw [hrest, he]
  rfl

/-- C17, amended: the seconds value of a heartbeat line is computed from
elapsed_ms when run_event_loop services the flag: for every k, if a firing
set PrintHeartbeat by changing elapsed_ms to 1000 * k and the pass runs n
firings later, that is after d = n / 10 further milliseconds, with
1000 * k + d < 2^32 (elapsed_ms has not wrapped in between), then the flag is
still set, elapsed_ms is 1000 * k + d, the pass prints
floor((1000 * k + d) / 1000), and this equals k iff d < 1000. -/
theorem heartbeat_reports_service_time (s0 : State) (k n : Nat) (r : Esb)
    (hset : reaches_multiple 1000 s0)
    (hk : (timer0_irq s0).g_elaspsed_time_in_ms = 1000 * k)
    (hd : 1000 * k + n / 10 < 2 ^ 32) :
    (ticks n (timer0_irq s0)).g_is_need_to_print_time ≠ 0 ∧
    (ticks n (timer0_irq s0)).g_elaspsed_time_in_ms = 1000 * k + n / 10 ∧
    (∃ rest, (run_event_loop (ticks n (timer0_irq s0)) r).2 =
      Action.printf (" " ++ toString ((1000 * k + n / 10) / 1000) ++ " sec\r\n")
        :: rest) ∧
    ((1000 * k + n / 10) / 1000 = k ↔ n / 10 < 1000) := by
  obtain ⟨hc0, he0, hp0⟩ := after_boundary_firing s0 hset
  have hp : (ticks n (timer0_irq s0)).g_is_need_to_print_time ≠ 0 :=
    ticks_print_stays _ hp0 n
  have he : (ticks n (timer0_irq s0)).g_elaspsed_time_in_ms = 1000 * k + n / 10 := by
    rw [(ticks_fields _ (by omega) he0 n).2, hc0, hk, Nat.zero_add]
    exact Nat.mod_eq_of_lt hd
  refine ⟨hp, he, ?_, ?_⟩
  · obtain ⟨rest, hrest⟩ := heartbeat_head _ r hp (by rw [he]; exact hd)
    exact ⟨rest, by rw [hrest, he]⟩
  · omega

/-- Witness of C17: the firing that takes elapsed_ms from 999 to 1000 sets
the flag (k = 1); a pass 15000 firings later (d = 1500 ms) prints 2, the value
of 2500 / 1000. -/
theorem heartbeat_reports_service_time_witness :
    reaches_multiple 1000
      { timer0_overflow_counter := 9, g_elaspsed_time_in_ms := 999,
        g_is_need_to_feed_the_watchdog := 0, g_is_need_to_print_time := 0 } ∧
    (∃ rest, (run_event_loop (ticks 15000 (timer0_irq
        { timer0_overflow_counter := 9, g_elaspsed_time_in_ms := 999,
          g_is_need_to_feed_the_watchdog := 0, g_is_need_to_print_time := 0 }))
        esb_idle).2 =
      Action.printf (" " ++ toString ((1000 * 1 + 15000 / 10) / 1000) ++ " sec\r\n")
        :: rest) ∧
    (1000 * 1 + 15000 / 10) / 1000 = 2 :=
  ⟨by decide,
    (heartbeat_reports_service_time
      { timer0_overflow_counter := 9, g_elaspsed_time_in_ms := 999,
        g_is_need_to_feed_the_watchdog := 0, g_is_need_to_print_time := 0 }
      1 15000 esb_idle (by decide) (by decide) (by norm_num)).2.2.1,
    by norm_num⟩

/-! ## The spacing of the firings that set a flag -/

theorem spacing_arith (k : Nat) (hk : k = 500 ∨ k = 1000) (a b : Nat) (hab : a < b)
    (ha : a % 2 ^ 32 % k = 0) (hb : b % 2 ^ 32 % k = 0)
    (hnone : ∀ c, a < c → c < b → c % 2 ^ 32 % k ≠ 0) :
    (b % 2 ^ 32 ≠ 0 → b - a = k) ∧ (b % 2 ^ 32 = 0 → b - a = 296) := by
  rcases hk with rfl | rfl
  · by_cases hx : a % 2 ^ 32 + 500 < 2 ^ 32
    · have hm : (a + 500) % 2 ^ 32 = a % 2 ^ 32 + 500 := by omega
      have hc : (a + 500) % 2 ^ 32 % 500 = 0 := by rw [hm]; omega
      have hle : b ≤ a + 500 := by
        by_contra hgt
        exact hnone (a + 500) (by omega) (by omega) hc
      have hbm : b % 2 ^ 32 = a % 2 ^ 32 + (b - a) := by omega
      rw [hbm] at hb
      constructor
      · intro _; omega
      · intro h0; omega
    · have hx2 : a % 2 ^ 32 = 4294967000 := by omega
      have hm : (a + 296) % 2 ^ 32 = 0 := by omega
      have hc : (a + 296) % 2 ^ 32 % 500 = 0 := by rw [hm]
      have hle : b ≤ a + 296 := by
        by_contra hgt
        exact hnone (a + 296) (by omega) (by omega) hc
      by_cases hbt : b = a + 296
      · subst hbt
        exact ⟨fun h => absurd hm h, fun _ => by omega⟩
      · have hbm : b % 2 ^ 32 = 4294967000 + (b - a) := by omega
        rw [hbm] at hb
        omega
  · by_cases hx : a % 2 ^ 32 + 1000 < 2 ^ 32
    · have hm : (a + 1000) % 2 ^ 32 = a % 2 ^ 32 + 1000 := by omega
      have hc : (a + 1000) % 2 ^ 32 % 1000 = 0 := by rw [hm]; omega
      have hle : b ≤ a + 1000 := by
        by_contra hgt
        exact hnone (a + 1000) (by omega) (by omega) hc
      have hbm : b % 2 ^ 32 = a % 2 ^ 32 + (b - a) := by omega
      rw [hbm] at hb
      constructor
      · intro _; omega
      · intro h0; omega
    · have hx2 : a % 2 ^ 32 = 4294967000 := by omega
      have hm : (a + 296) % 2 ^ 32 = 0 := by omega
      have hc : (a + 296) % 2 ^ 32 % 1000 = 0 := by rw [hm]
      have hle : b ≤ a + 296 := by
        by_contra hgt
        exact hnone (a + 296) (by omega) (by omega) hc
      by_cases hbt : b = a + 296
      · subst hbt
        exact ⟨fun h => absurd hm h, fun _ => by omega⟩
      · have hbm : b % 2 ^ 32 = 4294967000 + (b - a) := by omega
        rw [hbm] at hb
        omega

theorem sets_flag_iff (f : Flag) (n : Nat) :
    sets_flag f n ↔ n % 10 = 9 ∧ (n / 10 + 1) % 2 ^ 32 % f.interval = 0 := by
  have h : (n / 10 % 2 ^ 32 + 1) % 2 ^ 32 = (n / 10 + 1) % 2 ^ 32 := by omega
  rw [sets_flag, reaches_multiple_boot_iff, h]

theorem flag_interval_cases (f : Flag) : f.interval = 500 ∨ f.interval = 1000 := by
  cases f
  · exact Or.inl rfl
  · exact Or.inr rfl

/-- C16: in the tick sequence from boot, wrap of elapsed_ms included, if
two firings of timer0_irq set a flag and no firing between them sets it, they
are at most one interval apart (5000 firings for FeedWatchdog, 10000 for
PrintHeartbeat): exactly one interval when the second does not take
elapsed_ms to 0, and 296 ms (2960 firings), which is 2^32 mod 500 and 2^32
mod 1000, when the second is the wrap of elapsed_ms to 0, where both flags are
set. -/
theorem boundary_spacing (f : Flag) (n1 n2 : Nat) (hlt : n1 < n2)
    (h1 : sets_flag f n1) (h2 : sets_flag f n2)
    (hnone : ∀ m, n1 < m → m < n2 → ¬ sets_flag f m) :
    n2 - n1 ≤ 10 * f.interval ∧
    ((ticks (n2 + 1) boot).g_elaspsed_time_in_ms ≠ 0 → n2 - n1 = 10 * f.interval) ∧
    ((ticks (n2 + 1) boot).g_elaspsed_time_in_ms = 0 →
      n2 - n1 = 10 * 296 ∧
      Flag.FeedWatchdog.value (ticks (n2 + 1) boot) ≠ 0 ∧
      Flag.PrintHeartbeat.value (ticks (n2 + 1) boot) ≠ 0) ∧
    2 ^ 32 % 500 = 296 ∧ 2 ^ 32 % 1000 = 296 := by
  obtain ⟨h1a, h1b⟩ := (sets_flag_iff f n1).1 h1
  obtain ⟨h2a, h2b⟩ := (sets_flag_iff f n2).1 h2
  have hnone' : ∀ c, n1 / 10 + 1 < c → c < n2 / 10 + 1 → c % 2 ^ 32 % f.interval ≠ 0 := by
    intro c hc1 hc2 hc
    apply hnone (10 * (c - 1) + 9) (by omega) (by omega)
    rw [sets_flag_iff]
    have hdiv : (10 * (c - 1) + 9) / 10 + 1 = c := by omega
    rw [hdiv]
    exact ⟨by omega, hc⟩
  obtain ⟨ha, hb⟩ := spacing_arith f.interval (flag_interval_cases f) (n1 / 10 + 1) (n2 / 10 + 1)
    (by omega) h1b h2b hnone'
  have he : (ticks (n2 + 1) boot).g_elaspsed_time_in_ms = (n2 / 10 + 1) % 2 ^ 32 := by
    rw [(ticks_boot_fields (n2 + 1)).2]
    have : (n2 + 1) / 10 = n2 / 10 + 1 := by omega
    rw [this]
  rw [he]
  have hint := flag_interval_cases f
  refine ⟨?_, ?_, ?_, by norm_num, by norm_num⟩
  · by_cases h0 : (n2 / 10 + 1) % 2 ^ 32 = 0
    · have := hb h0
      rcases hint with h | h <;> rw [h] <;> omega
    · have := ha h0
      omega
  · intro h0
    have := ha h0
    omega
  · intro h0
    refine ⟨by have := hb h0; omega, ?_, ?_⟩
    · have hr : reaches_multiple Flag.FeedWatchdog.interval (ticks n2 boot) := by
        rw [reaches_multiple_boot_iff]
        have h : (n2 / 10 % 2 ^ 32 + 1) % 2 ^ 32 = (n2 / 10 + 1) % 2 ^ 32 := by omega
        rw [h, h0]
        exact ⟨h2a, rfl⟩
      exact (timer0_irq_flag_iff Flag.FeedWatchdog _).2 (Or.inr hr)
    · have hr : reaches_multiple Flag.PrintHeartbeat.interval (ticks n2 boot) := by
        rw [reaches_multiple_boot_iff]
        have h : (n2 / 10 % 2 ^ 32 + 1) % 2 ^ 32 = (n2 / 10 + 1) % 2 ^ 32 := by omega
        rw [h, h0]
        exact ⟨h2a, rfl⟩
      exact (timer0_irq_flag_iff Flag.PrintHeartbeat _).2 (Or.inr hr)

theorem sets_feed_iff (n : Nat) :
    sets_flag Flag.FeedWatchdog n ↔ n % 10 = 9 ∧ (n / 10 + 1) % 2 ^ 32 % 500 = 0 :=
  sets_flag_iff Flag.FeedWatchdog n

/-- Witness of C16: the firings that take elapsed_ms to 500 and to 1000 set
FeedWatchdog 5000 firings apart; the firing that takes elapsed_ms to
4294967000 and the firing that wraps it to 0 set FeedWatchdog 2960 firings
(296 ms) apart. -/
theorem boundary_spacing_witness :
    (sets_flag Flag.FeedWatchdog 4999 ∧ sets_flag Flag.FeedWatchdog 9999 ∧
      9999 - 4999 = 10 * Flag.FeedWatchdog.interval) ∧
    (sets_flag Flag.FeedWatchdog 42949669999 ∧ sets_flag Flag.FeedWatchdog 42949672959 ∧
      42949672959 - 42949669999 = 10 * 296) :=
  have a1 : sets_flag Flag.FeedWatchdog 4999 := (sets_feed_iff 4999).2 (by norm_num)
  have a2 : sets_flag Flag.FeedWatchdog 9999 := (sets_feed_iff 9999).2 (by norm_num)
  have a3 : ∀ m, 4999 < m → m < 9999 → ¬ sets_flag Flag.FeedWatchdog m := by
    intro m h1 h2 hm
    obtain ⟨hm1, hm2⟩ := (sets_feed_iff m).1 hm
    have hmod : (m / 10 + 1) % 2 ^ 32 = m / 10 + 1 := Nat.mod_eq_of_lt (by omega)
    rw [hmod] at hm2
    omega
  have a4 : (ticks (9999 + 1) boot).g_elaspsed_time_in_ms ≠ 0 := by
    rw [(ticks_boot_fields (9999 + 1)).2]; norm_num
  have b1 : sets_flag Flag.FeedWatchdog 42949669999 :=
    (sets_feed_iff 42949669999).2 (by norm_num)
  have b2 : sets_flag Flag.FeedWatchdog 42949672959 :=
    (sets_feed_iff 42949672959).2 (by norm_num)
  have b3 : ∀ m, 42949669999 < m → m < 42949672959 → ¬ sets_flag Flag.FeedWatchdog m := by
    intro m h1 h2 hm
    obtain ⟨hm1, hm2⟩ := (sets_feed_iff m).1 hm
    have hmod : (m / 10 + 1) % 2 ^ 32 = m / 10 + 1 := Nat.mod_eq_of_lt (by omega)
    rw [hmod] at hm2
    omega
  have b4 : (ticks (42949672959 + 1) boot).g_elaspsed_time_in_ms = 0 := by
    rw [(ticks_boot_fields (42949672959 + 1)).2]; norm_num
  ⟨⟨a1, a2, (boundary_spacing Flag.FeedWatchdog 4999 9999 (by norm_num) a1 a2 a3).2.1 a4⟩,
    b1, b2,
    ((boundary_spacing Flag.FeedWatchdog 42949669999 42949672959 (by norm_num)
      b1 b2 b3).2.2.1 b4).1⟩

/-! ## The read of the millisecond counter from the main context -/

theorem masked_read_is_snapshot (s : State) (fire : List Nat)
    (h : s.g_elaspsed_time_in_ms < 2 ^ 32) :
    get_elasped_time_in_ms_bytes 0 [3, 2, 1, 0] fire s = (s.g_elaspsed_time_in_ms, s) ∧
    get_elasped_time_in_ms_bytes 0 [0, 1, 2, 3] fire s = (s.g_elaspsed_time_in_ms, s) := by
  simp only [get_elasped_time_in_ms_bytes, byte_of, ne_eq, not_true_eq_false, if_false]
  norm_num
  constructor <;> omega

/-- C13, the code at the failing input: in the loop of main EA is 1 and
get_elasped_time_in_ms does not clear it, so the read is not masked. After
655359 firings from boot with no pass, elapsed_ms is 65535 with PrintHeartbeat
set; if one firing (which takes elapsed_ms to 65536) is taken between the
loads of the two high bytes and of the two low bytes, the read with EA = 1
returns 0, neither 65535 nor 65536, where the same read with EA = 0 returns
65535. With the low byte loaded first, after 10239 firings from boot the read
straddling the increment from 1023 to 1024 returns 1279. -/
theorem unmasked_read_can_tear :
    (∀ EA_at_reset, EA_in_event_loop EA_at_reset = 1) ∧
    ticks 655359 boot =
      { timer0_overflow_counter := 9, g_elaspsed_time_in_ms := 65535,
        g_is_need_to_feed_the_watchdog := 1, g_is_need_to_print_time := 1 } ∧
    (timer0_irq
      { timer0_overflow_counter := 9, g_elaspsed_time_in_ms := 65535,
        g_is_need_to_feed_the_watchdog := 1,
        g_is_need_to_print_time := 1 }).g_elaspsed_time_in_ms = 65536 ∧
    (get_elasped_time_in_ms_bytes 1 [3, 2, 1, 0] [0, 0, 1, 0]
      { timer0_overflow_counter := 9, g_elaspsed_time_in_ms := 65535,
        g_is_need_to_feed_the_watchdog := 1, g_is_need_to_print_time := 1 }).1 = 0 ∧
    (get_elasped_time_in_ms_bytes 0 [3, 2, 1, 0] [0, 0, 1, 0]
      { timer0_overflow_counter := 9, g_elaspsed_time_in_ms := 65535,
        g_is_need_to_feed_the_watchdog := 1, g_is_need_to_print_time := 1 }).1 = 65535 ∧
    ticks 10239 boot =
      { timer0_overflow_counter := 9, g_elaspsed_time_in_ms := 1023,
        g_is_need_to_feed_the_watchdog := 1, g_is_need_to_print_time := 1 } ∧
    (get_elasped_time_in_ms_bytes 1 [0, 1, 2, 3] [0, 1, 0, 0]
      { timer0_overflow_counter := 9, g_elaspsed_time_in_ms := 1023,
        g_is_need_to_feed_the_watchdog := 1, g_is_need_to_print_time := 1 }).1 = 1279 := by
  refine ⟨fun _ => rfl, ?_, by decide, by decide, by decide, ?_, by decide⟩
  · rw [ticks_boot_state 655359 (by norm_num)]
    norm_num
  · rw [ticks_boot_state 10239 (by norm_num)]
    norm_num

end PRX
